import Mathlib

/-!
# Verification development for the `well` trackpad driver (`well.c`)

Shallow embedding of the driver's data model and of the functions of `well.c`.

Conventions of the embedding:

* `u_int` fields are `Nat` with an explicit `% 2 ^ 32` where the C code can wrap;
  `int` values are `Int`; the conversions between the two that the C comparisons
  perform are `u32` and `toInt32`.
* The host USB stack is not part of the driver.  The host primitives that a driver
  function invokes are recorded, in program order, as a list of `usb_call`.
  Control requests (`usbd_do_request`) return a value and fill a buffer, so the
  transport is a parameter (`usb_host`).
* The `WELL_DEBUG/WELL_WARN/WELL_ERROR` logging calls only print; they are not part
  of the state.  The one place where logging reads driver memory (the dump loop of
  `well_trackpad_intr`) is recorded as the list of buffer indices it reads.
-/

namespace Well

/-! ## Constants (`well.c` lines 40-97) -/

def WELL_FIFO_BUF_SIZE : Nat := 8
def WELL_FIFO_QUEUE_MAXLEN : Nat := 50
def WELL_BUTTON_DATALEN : Nat := 4
def WELL_TYPE_1_OFFSET : Nat := 26
def WELL_TYPE_2_OFFSET : Nat := 30
def WELL_FINGER_SIZE : Nat := 28
def WELL_FINGER_DATALEN : Nat := WELL_FINGER_SIZE * 16
def WELL_MODE_LENGTH : Nat := 8

def DEV_WELLSPRING : Nat := 0
def DEV_WELLSPRING2 : Nat := 1
def DEV_WELLSPRING3 : Nat := 2
def DEV_WELLSPRING4 : Nat := 3
def DEV_WELLSPRING4a : Nat := 4
def DEV_WELLSPRING5 : Nat := 5
def DEV_WELLSPRING5a : Nat := 6
def DEV_WELLSPRING6 : Nat := 7
def DEV_WELLSPRING6a : Nat := 8
def DEV_WELLSPRING_N : Nat := 9

def RES_PRESSURE : Int := 256
def RES_WIDTH : Int := 16
def RES_X : Int := 1280
def RES_Y : Int := 800
def NOISE_WIDTH : Int := 1
def NOISE_PRESSURE : Int := 6
def NOISE_X : Int := 5
def NOISE_Y : Int := 3

def INTEGRATED_BUTTON : Int := 1

def WELL_ENABLED : Nat := 1

def RAW_SENSOR_MODE : Nat := 0x01
def HID_MODE : Nat := 0x08

/-! ## Machine integers -/

/-- Conversion of a C `int` to `unsigned int` (32 bit): reduction modulo `2 ^ 32`. -/
def u32 (x : Int) : Nat := (x % 2 ^ 32).toNat

/-- Conversion of an `unsigned int` to a C `int` (32 bit two's complement). -/
def toInt32 (n : Nat) : Int :=
  if n % 2 ^ 32 < 2 ^ 31 then ((n % 2 ^ 32 : Nat) : Int)
  else ((n % 2 ^ 32 : Nat) : Int) - 2 ^ 32

/-! ## Data model (`well.c` lines 99-135) -/

/-- The C `struct well_calib`. -/
structure well_calib where
  res : Int
  noise : Int
  min : Int
  max : Int
deriving DecidableEq, Repr

/-- The C `struct well_dev_params` (one profile of the table). -/
structure struct_well_dev_params where
  flags : Int
  name : String
  button_endpoint : Int
  trackpad_endpoint : Int
  button_datalen : Nat
  trackpad_datalen : Nat
  press_calib : well_calib
  width_calib : well_calib
  x_calib : well_calib
  y_calib : well_calib
deriving DecidableEq, Repr

/-- The RX FIFO `sc_fifo.fp[USB_FIFO_RX]` as the driver sees it: the value the
host reports for `usb_fifo_put_bytes_max`, and the packets queued in it. -/
structure usb_fifo where
  put_bytes_max : Nat
  queue : List (List Nat)
deriving DecidableEq, Repr

/-- Host query `usb_fifo_put_bytes_max(fifo)`. -/
def usb_fifo_put_bytes_max (f : usb_fifo) : Nat := f.put_bytes_max

/-- The C `struct well_softc`, restricted to the fields the modelled functions read
or write.  `sc_xfer` records whether `sc_xfer[WELL_INTR_TRACKPAD]` is non-NULL;
`sc_fifo` is `sc_fifo.fp[USB_FIFO_RX]`.  The host handles `sc_dev`,
`sc_usb_device`, `sc_mutex` are passed separately where a function needs them.
The fields `sc_hw` and `sc_mode` (assigned host constants by `well_attach`, read
nowhere) and `sc_status` (never used) are left out. -/
structure well_softc where
  sc_mode_bytes : List Nat
  sc_xfer : Bool
  sc_fifo : usb_fifo
  sc_params : struct_well_dev_params
  sc_pollrate : Nat
  sc_state : Nat
  sc_errs : Nat
deriving DecidableEq, Repr

/-! ## The profile table `well_dev_params` (`well.c` lines 136-415) -/

/-- The table `well_dev_params[DEV_WELLSPRING_N]`, entries in index order
(`DEV_WELLSPRING` = 0 ... `DEV_WELLSPRING6a` = 8).  Fields without an
initialiser (`button_endpoint`, `trackpad_endpoint`) are zero. -/
def well_dev_params : List struct_well_dev_params := [
  -- [DEV_WELLSPRING]
  { flags := 0, name := "Wellspring", button_endpoint := 0, trackpad_endpoint := 0,
    button_datalen := WELL_BUTTON_DATALEN,
    trackpad_datalen := WELL_TYPE_1_OFFSET + WELL_FINGER_DATALEN,
    press_calib := { res := RES_PRESSURE, noise := NOISE_PRESSURE, min := 0, max := 256 },
    width_calib := { res := RES_WIDTH, noise := NOISE_WIDTH, min := 0, max := 2048 },
    x_calib := { res := RES_X, noise := NOISE_X, min := -4824, max := 5324 },
    y_calib := { res := RES_Y, noise := NOISE_X, min := -172, max := 5820 } },
  -- [DEV_WELLSPRING2]
  { flags := 0, name := "Wellspring 2", button_endpoint := 0, trackpad_endpoint := 0,
    button_datalen := WELL_BUTTON_DATALEN,
    trackpad_datalen := WELL_TYPE_1_OFFSET + WELL_FINGER_DATALEN,
    press_calib := { res := RES_PRESSURE, noise := NOISE_PRESSURE, min := 0, max := 256 },
    width_calib := { res := RES_WIDTH, noise := NOISE_WIDTH, min := 0, max := 2048 },
    x_calib := { res := RES_X, noise := NOISE_X, min := -4824, max := 4824 },
    y_calib := { res := RES_Y, noise := NOISE_X, min := -172, max := 4290 } },
  -- [DEV_WELLSPRING3]
  { flags := INTEGRATED_BUTTON, name := "Wellspring 3", button_endpoint := 0,
    trackpad_endpoint := 0,
    button_datalen := WELL_BUTTON_DATALEN,
    trackpad_datalen := WELL_TYPE_2_OFFSET + WELL_FINGER_DATALEN,
    press_calib := { res := RES_PRESSURE, noise := NOISE_PRESSURE, min := 0, max := 300 },
    width_calib := { res := RES_WIDTH, noise := NOISE_WIDTH, min := 0, max := 2048 },
    x_calib := { res := RES_X, noise := NOISE_X, min := -4460, max := 5166 },
    y_calib := { res := RES_Y, noise := NOISE_X, min := -75, max := 6700 } },
  -- [DEV_WELLSPRING4]
  { flags := INTEGRATED_BUTTON, name := "Wellspring 4", button_endpoint := 0,
    trackpad_endpoint := 0,
    button_datalen := WELL_BUTTON_DATALEN,
    trackpad_datalen := WELL_TYPE_2_OFFSET + WELL_FINGER_DATALEN,
    press_calib := { res := RES_PRESSURE, noise := NOISE_PRESSURE, min := 0, max := 300 },
    width_calib := { res := RES_WIDTH, noise := NOISE_WIDTH, min := 0, max := 2048 },
    x_calib := { res := RES_X, noise := NOISE_X, min := -4620, max := 5140 },
    y_calib := { res := RES_Y, noise := NOISE_X, min := -150, max := 6600 } },
  -- [DEV_WELLSPRING4a]
  { flags := INTEGRATED_BUTTON, name := "Wellspring 4a", button_endpoint := 0,
    trackpad_endpoint := 0,
    button_datalen := WELL_BUTTON_DATALEN,
    trackpad_datalen := WELL_TYPE_2_OFFSET + WELL_FINGER_DATALEN,
    press_calib := { res := RES_PRESSURE, noise := NOISE_PRESSURE, min := 0, max := 300 },
    width_calib := { res := RES_WIDTH, noise := NOISE_WIDTH, min := 0, max := 2048 },
    x_calib := { res := RES_X, noise := NOISE_X, min := -4616, max := 5112 },
    y_calib := { res := RES_Y, noise := NOISE_X, min := -142, max := 5234 } },
  -- [DEV_WELLSPRING5]
  { flags := INTEGRATED_BUTTON, name := "Wellspring 5", button_endpoint := 0,
    trackpad_endpoint := 0,
    button_datalen := WELL_BUTTON_DATALEN,
    trackpad_datalen := WELL_TYPE_2_OFFSET + WELL_FINGER_DATALEN,
    press_calib := { res := RES_PRESSURE, noise := NOISE_PRESSURE, min := 0, max := 300 },
    width_calib := { res := RES_WIDTH, noise := NOISE_WIDTH, min := 0, max := 2048 },
    x_calib := { res := RES_X, noise := NOISE_X, min := -4415, max := 5050 },
    y_calib := { res := RES_Y, noise := NOISE_X, min := -55, max := 6680 } },
  -- [DEV_WELLSPRING5a]
  { flags := INTEGRATED_BUTTON, name := "Wellspring 5a", button_endpoint := 0,
    trackpad_endpoint := 0,
    button_datalen := WELL_BUTTON_DATALEN,
    trackpad_datalen := WELL_TYPE_2_OFFSET + WELL_FINGER_DATALEN,
    press_calib := { res := RES_PRESSURE, noise := NOISE_PRESSURE, min := 0, max := 300 },
    width_calib := { res := RES_WIDTH, noise := NOISE_WIDTH, min := 0, max := 2048 },
    x_calib := { res := RES_X, noise := NOISE_X, min := -4750, max := 5280 },
    y_calib := { res := RES_Y, noise := NOISE_X, min := -150, max := 6730 } },
  -- [DEV_WELLSPRING6]
  { flags := INTEGRATED_BUTTON, name := "Wellspring 6", button_endpoint := 0,
    trackpad_endpoint := 0,
    button_datalen := WELL_BUTTON_DATALEN,
    trackpad_datalen := WELL_TYPE_2_OFFSET + WELL_FINGER_DATALEN,
    press_calib := { res := RES_PRESSURE, noise := NOISE_PRESSURE, min := 0, max := 300 },
    width_calib := { res := RES_WIDTH, noise := NOISE_WIDTH, min := 0, max := 2048 },
    x_calib := { res := RES_X, noise := NOISE_X, min := -4620, max := 5140 },
    y_calib := { res := RES_Y, noise := NOISE_X, min := -150, max := 6600 } },
  -- [DEV_WELLSPRING6a]
  { flags := INTEGRATED_BUTTON, name := "Wellspring 6a", button_endpoint := 0,
    trackpad_endpoint := 0,
    button_datalen := WELL_BUTTON_DATALEN,
    trackpad_datalen := WELL_TYPE_2_OFFSET + WELL_FINGER_DATALEN,
    press_calib := { res := RES_PRESSURE, noise := NOISE_PRESSURE, min := 0, max := 300 },
    width_calib := { res := RES_WIDTH, noise := NOISE_WIDTH, min := 0, max := 2048 },
    x_calib := { res := RES_X, noise := NOISE_X, min := -4620, max := 5140 },
    y_calib := { res := RES_Y, noise := NOISE_X, min := -150, max := 6600 } } ]

/-! ## Host interface -/

/-- The state reported by `USB_GET_STATE(xfer)`.  The `default:` arm of the
callbacks' `switch` is the error state. -/
inductive usb_state where
  | USB_ST_SETUP
  | USB_ST_TRANSFERRED
  | USB_ST_ERROR
deriving DecidableEq, Repr

/-- The host's `usb_error_t`.  The driver distinguishes only normal completion and
cancellation; every other value of the host enumeration is `USB_ERR_OTHER`. -/
inductive usb_error_t where
  | USB_ERR_NORMAL_COMPLETION
  | USB_ERR_CANCELLED
  | USB_ERR_OTHER (code : Nat)
deriving DecidableEq, Repr

/-- Request type byte of a control request, kept symbolic. -/
inductive usb_bmRequestType where
  | UT_READ_CLASS_INTERFACE
  | UT_WRITE_CLASS_INTERFACE
deriving DecidableEq, Repr

/-- Request code of a control request, kept symbolic. -/
inductive usb_bRequest where
  | UR_GET_REPORT
  | UR_SET_REPORT
deriving DecidableEq, Repr

/-- The host's `struct usb_device_request`; the 16-bit fields are byte pairs. -/
structure usb_device_request where
  bmRequestType : usb_bmRequestType
  bRequest : usb_bRequest
  wValue : List Nat
  wIndex : List Nat
  wLength : List Nat
deriving DecidableEq, Repr

/-- Host primitives a driver function invokes on a transfer or on the RX FIFO.
`usb_fifo_put_data` is the host's enqueue into a FIFO, the only way a frame can
reach the reader.  `usbd_copy_in_req` is `usbd_copy_in` of a request header,
`usbd_copy_in` that of a byte buffer; both record the source and the length. -/
inductive usb_call where
  | usbd_copy_out (frame offset len : Nat)
  | usbd_xfer_set_frame_len (frame len : Nat)
  | usbd_transfer_submit
  | usbd_xfer_set_stall
  | usbd_transfer_stop
  | usbd_transfer_start
  | usbd_xfer_set_interval (i : Int)
  | usb_fifo_put_data (len : Nat)
  | usbd_copy_in_req (frame offset : Nat) (req : usb_device_request) (len : Nat)
  | usbd_copy_in (frame offset : Nat) (src : List Nat) (len : Nat)
  | usbd_xfer_set_frames (n : Nat)
  | usb_fifo_alloc_buffer (bufsize nbuf : Nat)
  | usb_fifo_free_buffer
deriving DecidableEq, Repr

/-- Host macro `USETW(w, v)`: `w[0] = (uint8_t)v, w[1] = (uint8_t)(v >> 8)`. -/
def USETW (v : Nat) : List Nat := [v % 256, (v / 256) % 256]

/-- Host macro `USETW2(w, b1, b0)`: `w[0] = (uint8_t)b0, w[1] = (uint8_t)b1`. -/
def USETW2 (b1 b0 : Nat) : List Nat := [b0 % 256, b1 % 256]

/-- The control transport: `usbd_do_request(udev, NULL, &req, data)` on a device in
state `D` returns the completion code, the contents of `data` afterwards and the
device's next state. -/
structure usb_host (D : Type) where
  usbd_do_request : D → usb_device_request → List Nat → usb_error_t × List Nat × D

/-- Host constant `ENXIO` of `<sys/errno.h>` (not in the driver's sources); the
driver only uses that it is not 0. -/
def ENXIO : Int := 6

/-! ## Mode negotiation (`well.c` lines 538-600) -/

/-- The C `well_req_get_report`. -/
def well_req_get_report {D : Type} (h : usb_host D) (udev : D) (data : List Nat) :
    usb_error_t × List Nat × D :=
  let req : usb_device_request :=
    { bmRequestType := usb_bmRequestType.UT_READ_CLASS_INTERFACE,
      bRequest := usb_bRequest.UR_GET_REPORT,
      wValue := USETW 0x300,
      wIndex := USETW 0,
      wLength := USETW WELL_MODE_LENGTH }
  h.usbd_do_request udev req data

/-- The C `well_set_device_mode`: result code, softc and device afterwards. -/
def well_set_device_mode {D : Type} (h : usb_host D) (udev : D) (sc : well_softc)
    (mode : Nat) : Int × well_softc × D :=
  if mode ≠ RAW_SENSOR_MODE ∧ mode ≠ HID_MODE then
    ( ENXIO, sc, udev)
  else
    let sc1 := { sc with sc_mode_bytes := sc.sc_mode_bytes.set 0 mode }
    let req : usb_device_request :=
      { bmRequestType := usb_bmRequestType.UT_WRITE_CLASS_INTERFACE,
        bRequest := usb_bRequest.UR_SET_REPORT,
        wValue := USETW 0x300,
        wIndex := USETW 0,
        wLength := USETW WELL_MODE_LENGTH }
    let r := h.usbd_do_request udev req sc1.sc_mode_bytes
    let sc2 := { sc1 with sc_mode_bytes := r.2.1 }
    if r.1 ≠ usb_error_t.USB_ERR_NORMAL_COMPLETION then
      ( ENXIO, sc2, r.2.2)
    else
      (0, sc2, r.2.2)

/-- The C `well_set_mode`. -/
def well_set_mode {D : Type} (h : usb_host D) (udev : D) (sc : well_softc)
    (mode : Nat) : Int × well_softc × D :=
  let r := well_req_get_report h udev (List.replicate WELL_MODE_LENGTH 0)
  let sc1 := { sc with sc_mode_bytes := r.2.1 }
  if r.1 ≠ usb_error_t.USB_ERR_NORMAL_COMPLETION then
    ( ENXIO, sc1, r.2.2)
  else
    let s := well_set_device_mode h r.2.2 sc1 mode
    if s.1 ≠ 0 then ( ENXIO, s.2.1, s.2.2) else (0, s.2.1, s.2.2)

/-! ## FIFO commands (`well.c` lines 638-674) -/

/-- Outcome of a FIFO command: softc and device afterwards, host calls made. -/
structure fifo_cmd_result (D : Type) where
  sc : well_softc
  udev : D
  calls : List usb_call

/-- The C `well_start_read`.  The result of `well_set_mode` is discarded, as in the
source. -/
def well_start_read {D : Type} (h : usb_host D) (udev : D) (sc : well_softc) :
    fifo_cmd_result D :=
  let rate0 : Int := toInt32 sc.sc_pollrate
  let rate : Int := if rate0 > 1000 then 1000 else rate0
  let p : well_softc × List usb_call :=
    if rate > 0 ∧ sc.sc_xfer = true then
      ({ sc with sc_pollrate := 0 },
        [usb_call.usbd_transfer_stop, usb_call.usbd_xfer_set_interval (Int.tdiv 1000 rate)])
    else (sc, [])
  let m := well_set_mode h udev p.1 RAW_SENSOR_MODE
  { sc := m.2.1, udev := m.2.2, calls := p.2 ++ [usb_call.usbd_transfer_start] }

/-- The C `well_stop_read`. -/
def well_stop_read {D : Type} (h : usb_host D) (udev : D) (sc : well_softc) :
    fifo_cmd_result D :=
  let m := well_set_mode h udev sc HID_MODE
  { sc := m.2.1, udev := m.2.2, calls := [usb_call.usbd_transfer_stop] }

/-! ## The trackpad interrupt callback (`well.c` lines 738-798) -/

/-- Outcome of one invocation of an interrupt callback: the softc afterwards, the
host calls made in order, and the indices of the local buffer `data` that were
read (by the dump loop). -/
structure intr_result where
  sc : well_softc
  calls : List usb_call
  data_reads : List Nat
deriving DecidableEq, Repr

/-- The `tr_setup:` label of `well_trackpad_intr` (lines 774-786), entered with the
calls and reads made so far. -/
def tr_setup (sc : well_softc) (calls : List usb_call) (reads : List Nat) : intr_result :=
  if sc.sc_errs < 5 then
    if usb_fifo_put_bytes_max sc.sc_fifo ≠ 0 then
      { sc := sc,
        calls := calls ++ [usb_call.usbd_xfer_set_frame_len 0 sc.sc_params.trackpad_datalen,
                           usb_call.usbd_transfer_submit],
        data_reads := reads }
    else { sc := sc, calls := calls, data_reads := reads }
  else { sc := sc, calls := calls, data_reads := reads }

/-- The C `well_trackpad_intr`.  `state` is `USB_GET_STATE(xfer)`, `len` the length
stored by `usbd_xfer_status`, `error` the callback's second argument.  The
comparisons of the `int len` with the `u_int trackpad_datalen` are unsigned. -/
def well_trackpad_intr (sc : well_softc) (state : usb_state) (len : Int)
    (error : usb_error_t) : intr_result :=
  match state with
  | usb_state.USB_ST_TRANSFERRED =>
    let len1 : Int :=
      if u32 len > sc.sc_params.trackpad_datalen then toInt32 sc.sc_params.trackpad_datalen
      else len
    if u32 len1 < sc.sc_params.trackpad_datalen then
      tr_setup { sc with sc_errs := (sc.sc_errs + 1) % 2 ^ 32 } [] []
    else
      tr_setup { sc with sc_errs := 0 }
        [usb_call.usbd_copy_out 0 0 sc.sc_params.trackpad_datalen]
        (List.range (WELL_TYPE_2_OFFSET + WELL_FINGER_DATALEN))
  | usb_state.USB_ST_SETUP => tr_setup sc [] []
  | usb_state.USB_ST_ERROR =>
    let sc1 := { sc with sc_errs := (sc.sc_errs + 1) % 2 ^ 32 }
    if error ≠ usb_error_t.USB_ERR_CANCELLED then
      tr_setup sc1 [usb_call.usbd_xfer_set_stall] []
    else { sc := sc1, calls := [], data_reads := [] }

/-- True when the calls contain a `usbd_transfer_submit`. -/
def submits (calls : List usb_call) : Bool :=
  decide (usb_call.usbd_transfer_submit ∈ calls)

/-- Number of enqueues into the RX FIFO among the calls. -/
def fifo_puts (calls : List usb_call) : Nat :=
  (calls.filter (fun c => match c with
    | usb_call.usb_fifo_put_data _ => true
    | _ => false)).length

/-- The lengths of the `usbd_copy_out` calls among the calls, in order. -/
def copy_outs (calls : List usb_call) : List Nat :=
  calls.filterMap (fun c => match c with
    | usb_call.usbd_copy_out _ _ n => some n
    | _ => none)

/-- Size of the local buffer `char data[WELL_TYPE_2_OFFSET + WELL_FINGER_DATALEN]`. -/
def data_size : Nat := WELL_TYPE_2_OFFSET + WELL_FINGER_DATALEN

/-! ## The trackpad channel as a transition system

The host invokes `well_trackpad_intr` in the setup state when the transfer is
started, and in the transferred or error state when a transfer that the callback
submitted completes (a cancellation by `usbd_transfer_stop` is a completion with
`USB_ERR_CANCELLED`).  The reader of the FIFO changes its capacity between
callbacks. -/

/-- One completion delivered to the callback, with the RX FIFO as it is then. -/
structure completion where
  state : usb_state
  len : Int
  error : usb_error_t
  fifo : usb_fifo
deriving DecidableEq, Repr

/-- Runs `well_trackpad_intr` on consecutive completions; returns the final softc
and the outcome of every invocation. -/
def well_trackpad_run (sc : well_softc) : List completion → well_softc × List intr_result
  | [] => (sc, [])
  | c :: cs =>
    let r := well_trackpad_intr { sc with sc_fifo := c.fifo } c.state c.len c.error
    let rest := well_trackpad_run r.sc cs
    (rest.1, r :: rest.2)

/-- A completion that is a short frame (`0 <= len < trackpad_datalen`) or a
transport error. -/
def short_or_error (p : struct_well_dev_params) (c : completion) : Prop :=
  (c.state = usb_state.USB_ST_TRANSFERRED ∧ 0 ≤ c.len ∧ c.len < (p.trackpad_datalen : Int))
    ∨ c.state = usb_state.USB_ST_ERROR

instance (p : struct_well_dev_params) (c : completion) : Decidable (short_or_error p c) := by
  unfold short_or_error
  exact inferInstance

/-- A completion in the error state with `USB_ERR_CANCELLED`. -/
def is_cancel (c : completion) : Bool :=
  decide (c.state = usb_state.USB_ST_ERROR ∧ c.error = usb_error_t.USB_ERR_CANCELLED)

/-- State of the driver together with the host side of the trackpad transfer:
`transferring` holds while a submitted transfer has not completed. -/
structure drv_state (D : Type) where
  sc : well_softc
  udev : D
  transferring : Bool

/-- Events of the trackpad channel. -/
inductive drv_event where
  | start_read
  | stop_read
  | intr (state : usb_state) (len : Int) (error : usb_error_t)
  | fifo_update (f : usb_fifo)
deriving DecidableEq, Repr

/-- One step of the channel.  A callback in the transferred or error state is
possible only while a transfer is in flight, and consumes it.  The callbacks that
the host makes because of the `usbd_transfer_start` and `usbd_transfer_stop` calls
of the FIFO commands (a setup invocation, a completion with `USB_ERR_CANCELLED`)
are `intr` events of their own. -/
def drv_step {D : Type} (h : usb_host D) (s : drv_state D) : drv_event → Option (drv_state D)
  | drv_event.start_read =>
    let r := well_start_read h s.udev s.sc
    some { sc := r.sc, udev := r.udev, transferring := s.transferring }
  | drv_event.stop_read =>
    let r := well_stop_read h s.udev s.sc
    some { sc := r.sc, udev := r.udev, transferring := s.transferring }
  | drv_event.intr state len error =>
    if state = usb_state.USB_ST_SETUP then
      let r := well_trackpad_intr s.sc state len error
      some { sc := r.sc, udev := s.udev, transferring := s.transferring || submits r.calls }
    else if s.transferring = true then
      let r := well_trackpad_intr s.sc state len error
      some { sc := r.sc, udev := s.udev, transferring := submits r.calls }
    else none
  | drv_event.fifo_update f =>
    some { sc := { s.sc with sc_fifo := f }, udev := s.udev, transferring := s.transferring }

/-- Runs a sequence of events; `none` when an event is not possible. -/
def drv_run {D : Type} (h : usb_host D) (s : drv_state D) : List drv_event → Option (drv_state D)
  | [] => some s
  | e :: es =>
    match drv_step h s e with
    | none => none
    | some s1 => drv_run h s1 es

/-! ## Enable, open and close (`well.c` lines 524-535 and 602-636) -/

/-- Host constant `FREAD` of `<sys/fcntl.h>` (not in the driver's sources). -/
def FREAD : Nat := 1

/-- Host constant `EBUSY` of `<sys/errno.h>` (not in the driver's sources). -/
def EBUSY : Int := 16

/-- Host constant `ENOMEM` of `<sys/errno.h>` (not in the driver's sources). -/
def ENOMEM : Int := 12

/-- The C `well_enable`: `sc_state |= WELL_ENABLED`, returns 0. -/
def well_enable (sc : well_softc) : Int × well_softc :=
  (0, { sc with sc_state := sc.sc_state ||| WELL_ENABLED })

/-- The C `well_disable`: `sc_state &= ~WELL_ENABLED`; the complement of the `int`
constant is converted to `u_int` for the conjunction. -/
def well_disable (sc : well_softc) : well_softc :=
  { sc with sc_state := sc.sc_state &&& u32 (-(WELL_ENABLED : Int) - 1) }

/-- Outcome of `well_open` or `well_close`: result code, softc afterwards, host
calls made. -/
structure open_result where
  ret : Int
  sc : well_softc
  calls : List usb_call
deriving DecidableEq, Repr

/-- The C `well_open`.  `fflags` is the (non-negative) flag word, `alloc_err` the
value returned by `usb_fifo_alloc_buffer`.  The value of `well_enable` is stored in
`out` and not used: the function returns 0. -/
def well_open (sc : well_softc) (fflags : Nat) (alloc_err : Int) : open_result :=
  if fflags &&& FREAD ≠ 0 then
    if sc.sc_state &&& WELL_ENABLED ≠ 0 then
      { ret := EBUSY, sc := sc, calls := [] }
    else if alloc_err ≠ 0 then
      { ret := ENOMEM, sc := sc,
        calls := [usb_call.usb_fifo_alloc_buffer WELL_FIFO_BUF_SIZE WELL_FIFO_QUEUE_MAXLEN] }
    else
      { ret := 0, sc := (well_enable sc).2,
        calls := [usb_call.usb_fifo_alloc_buffer WELL_FIFO_BUF_SIZE WELL_FIFO_QUEUE_MAXLEN] }
  else { ret := 0, sc := sc, calls := [] }

/-- The C `well_close` (a `void` function: `ret` is 0). -/
def well_close (sc : well_softc) (fflags : Nat) : open_result :=
  if fflags &&& FREAD ≠ 0 then
    { ret := 0, sc := well_disable sc, calls := [usb_call.usb_fifo_free_buffer] }
  else { ret := 0, sc := sc, calls := [] }

/-! ## The reset callback (`well.c` lines 800-835) -/

/-- The host's `sizeof(struct usb_device_request)`: two `uByte` and three `uWord`
fields, packed. -/
def sizeof_usb_device_request : Nat := 1 + 1 + 2 + 2 + 2

/-- Outcome of `well_reset_callback`: softc afterwards and host calls made. -/
structure reset_result where
  sc : well_softc
  calls : List usb_call
deriving DecidableEq, Repr

/-- The C `well_reset_callback`; `state` is `USB_GET_STATE(xfer)`. -/
def well_reset_callback (sc : well_softc) (state : usb_state) : reset_result :=
  match state with
  | usb_state.USB_ST_SETUP =>
    let sc1 := { sc with sc_mode_bytes := sc.sc_mode_bytes.set 0 RAW_SENSOR_MODE }
    let req : usb_device_request :=
      { bmRequestType := usb_bmRequestType.UT_WRITE_CLASS_INTERFACE,
        bRequest := usb_bRequest.UR_SET_REPORT,
        wValue := USETW2 0x03 0x00,
        wIndex := USETW 0,
        wLength := USETW WELL_MODE_LENGTH }
    { sc := sc1,
      calls := [usb_call.usbd_copy_in_req 0 0 req sizeof_usb_device_request,
                usb_call.usbd_copy_in 1 0 sc1.sc_mode_bytes WELL_MODE_LENGTH,
                usb_call.usbd_xfer_set_frame_len 0 sizeof_usb_device_request,
                usb_call.usbd_xfer_set_frame_len 1 WELL_MODE_LENGTH,
                usb_call.usbd_xfer_set_frames 2,
                usb_call.usbd_transfer_submit] }
  | usb_state.USB_ST_TRANSFERRED => { sc := sc, calls := [] }
  | usb_state.USB_ST_ERROR => { sc := sc, calls := [] }

/-! ## Transports used to observe the control requests -/

/-- The transport `h` with a record of the control requests made: every call of
`usbd_do_request` appends the request header and the buffer it was given. -/
def usb_host_log {D : Type} (h : usb_host D) :
    usb_host (D × List (usb_device_request × List Nat)) :=
  { usbd_do_request := fun d req data =>
      let r := h.usbd_do_request d.1 req data
      (r.1, r.2.1, (r.2.2, d.2 ++ [(req, data)])) }

/-- A device that keeps the payload of the last set-report that completed normally
and returns it on get-report.  `script` lists the completion codes of the coming
requests (normal completion once it is exhausted). -/
structure mode_device where
  stored : List Nat
  script : List usb_error_t
deriving DecidableEq, Repr

/-- The transport of a `mode_device`: a request that does not complete normally
leaves buffer and stored payload as they are. -/
def mode_host : usb_host mode_device :=
  { usbd_do_request := fun d req data =>
      let err := d.script.headD usb_error_t.USB_ERR_NORMAL_COMPLETION
      if err ≠ usb_error_t.USB_ERR_NORMAL_COMPLETION then
        (err, data, { stored := d.stored, script := d.script.tail })
      else
        match req.bRequest with
        | usb_bRequest.UR_SET_REPORT =>
          (usb_error_t.USB_ERR_NORMAL_COMPLETION, data,
            { stored := data, script := d.script.tail })
        | usb_bRequest.UR_GET_REPORT =>
          (usb_error_t.USB_ERR_NORMAL_COMPLETION, d.stored,
            { stored := d.stored, script := d.script.tail }) }

/-- A transport on which every control request fails and leaves the buffer as it
is. -/
def host_fail : usb_host Unit :=
  { usbd_do_request := fun d _ data => (usb_error_t.USB_ERR_OTHER 1, data, d) }

/-! ## The device-ID table `well_devs` (`well.c` lines 417-463) -/

/-- Host constant `USB_VENDOR_APPLE` of `usbdevs.h` (not in the driver's sources);
only that every entry carries the same vendor is used. -/
def USB_VENDOR_APPLE : Nat := 0x05ac

/-- An entry `USB_VPI(vendor, product, info)` of a host ID table. -/
structure usb_host_id where
  idVendor : Nat
  idProduct : Nat
  driver_info : Nat
deriving DecidableEq, Repr

/-- Host macro `USB_VPI(vend, prod, info)`. -/
def USB_VPI (vend prod info : Nat) : usb_host_id :=
  { idVendor := vend, idProduct := prod, driver_info := info }

/-- The table `well_devs`. -/
def well_devs : List usb_host_id := [
  -- MacBook Air 1.1
  USB_VPI USB_VENDOR_APPLE 0x0223 DEV_WELLSPRING,
  USB_VPI USB_VENDOR_APPLE 0x0224 DEV_WELLSPRING,
  USB_VPI USB_VENDOR_APPLE 0x0225 DEV_WELLSPRING,
  -- MacBook Pro Penryn
  USB_VPI USB_VENDOR_APPLE 0x0230 DEV_WELLSPRING2,
  USB_VPI USB_VENDOR_APPLE 0x0231 DEV_WELLSPRING2,
  USB_VPI USB_VENDOR_APPLE 0x0232 DEV_WELLSPRING2,
  -- MacBook 5,1
  USB_VPI USB_VENDOR_APPLE 0x0236 DEV_WELLSPRING3,
  USB_VPI USB_VENDOR_APPLE 0x0237 DEV_WELLSPRING3,
  USB_VPI USB_VENDOR_APPLE 0x0238 DEV_WELLSPRING3,
  -- MacBook Air 3.2
  USB_VPI USB_VENDOR_APPLE 0x023f DEV_WELLSPRING4,
  USB_VPI USB_VENDOR_APPLE 0x0240 DEV_WELLSPRING4,
  USB_VPI USB_VENDOR_APPLE 0x0241 DEV_WELLSPRING4,
  -- MacBook Air 3.1
  USB_VPI USB_VENDOR_APPLE 0x0242 DEV_WELLSPRING4a,
  USB_VPI USB_VENDOR_APPLE 0x0243 DEV_WELLSPRING4a,
  USB_VPI USB_VENDOR_APPLE 0x0244 DEV_WELLSPRING4a,
  -- MacBook Pro 8,2
  USB_VPI USB_VENDOR_APPLE 0x0252 DEV_WELLSPRING5a,
  USB_VPI USB_VENDOR_APPLE 0x0253 DEV_WELLSPRING5a,
  USB_VPI USB_VENDOR_APPLE 0x0254 DEV_WELLSPRING5a,
  -- MacBook Pro 8,1
  USB_VPI USB_VENDOR_APPLE 0x0245 DEV_WELLSPRING5,
  USB_VPI USB_VENDOR_APPLE 0x0246 DEV_WELLSPRING5,
  USB_VPI USB_VENDOR_APPLE 0x0247 DEV_WELLSPRING5,
  -- MacBook Air 4.2
  USB_VPI USB_VENDOR_APPLE 0x024c DEV_WELLSPRING6a,
  USB_VPI USB_VENDOR_APPLE 0x024d DEV_WELLSPRING6a,
  USB_VPI USB_VENDOR_APPLE 0x024e DEV_WELLSPRING6a,
  -- MacBook Air 4.1
  USB_VPI USB_VENDOR_APPLE 0x0249 DEV_WELLSPRING6,
  USB_VPI USB_VENDOR_APPLE 0x024a DEV_WELLSPRING6,
  USB_VPI USB_VENDOR_APPLE 0x024b DEV_WELLSPRING6 ]

/-! ## The button interrupt callback (`well.c` lines 682-736) -/

/-- The `tr_setup:` label of `well_button_intr` (lines 716-724), entered with the
calls and reads made so far. -/
def button_tr_setup (sc : well_softc) (calls : List usb_call) (reads : List Nat) :
    intr_result :=
  if usb_fifo_put_bytes_max sc.sc_fifo ≠ 0 then
    { sc := sc,
      calls := calls ++ [usb_call.usbd_xfer_set_frame_len 0 sc.sc_params.button_datalen,
                         usb_call.usbd_transfer_submit],
      data_reads := reads }
  else { sc := sc, calls := calls, data_reads := reads }

/-- The C `well_button_intr`; arguments as for `well_trackpad_intr`.  The reads are
those of `data[0]` ... `data[3]` by the debug message. -/
def well_button_intr (sc : well_softc) (state : usb_state) (len : Int)
    (error : usb_error_t) : intr_result :=
  match state with
  | usb_state.USB_ST_TRANSFERRED =>
    let len1 : Int :=
      if u32 len > sc.sc_params.button_datalen then toInt32 sc.sc_params.button_datalen
      else len
    if u32 len1 < sc.sc_params.button_datalen then
      button_tr_setup sc [] []
    else
      button_tr_setup sc [usb_call.usbd_copy_out 0 0 sc.sc_params.button_datalen]
        [0, 1, 2, 3]
  | usb_state.USB_ST_SETUP => button_tr_setup sc [] []
  | usb_state.USB_ST_ERROR =>
    if error ≠ usb_error_t.USB_ERR_CANCELLED then
      button_tr_setup sc [usb_call.usbd_xfer_set_stall] []
    else { sc := sc, calls := [], data_reads := [] }

/-! ## Attach and detach (`well.c` lines 867-981) -/

/-- Host calls made by `well_attach` and `well_detach`. -/
inductive attach_call where
  | mtx_init
  | usbd_transfer_setup
  | usb_fifo_attach
  | device_set_usb_desc
  | mtx_lock
  | mtx_unlock
  | usb_fifo_detach
  | usbd_transfer_unsetup
  | mtx_destroy
deriving DecidableEq, Repr

/-- Outcome of `well_attach` or `well_detach`. -/
structure attach_result where
  ret : Int
  sc : well_softc
  calls : List attach_call
deriving DecidableEq, Repr

/-- The C `well_detach`.  `usbd_transfer_unsetup` clears the transfer pointers. -/
def well_detach (sc : well_softc) : attach_result :=
  let p : well_softc × List attach_call :=
    if sc.sc_state &&& WELL_ENABLED ≠ 0 then
      (well_disable sc, [attach_call.mtx_lock, attach_call.mtx_unlock])
    else (sc, [])
  { ret := 0,
    sc := { p.1 with sc_xfer := false },
    calls := p.2 ++ [attach_call.usb_fifo_detach, attach_call.usbd_transfer_unsetup,
                     attach_call.mtx_destroy] }

/-- The C `well_attach`.  `driver_info` is `uaa->driver_info`, `setup_err` the
result of `usbd_transfer_setup`, `fifo_err` that of `usb_fifo_attach`.  The local
`err` is declared without an initialiser and tested (line 902) before anything is
assigned to it: `err0` is the value it happens to hold.  The result is `none` when
`driver_info` is not an index of `well_dev_params`. -/
def well_attach (sc : well_softc) (driver_info : Nat) (err0 : Int)
    (setup_err : usb_error_t) (fifo_err : Int) : Option attach_result :=
  if err0 ≠ 0 then
    some { ret := err0, sc := sc, calls := [attach_call.mtx_init] }
  else if setup_err ≠ usb_error_t.USB_ERR_NORMAL_COMPLETION then
    some { ret := ENOMEM, sc := (well_detach sc).sc,
           calls := [attach_call.mtx_init, attach_call.usbd_transfer_setup]
             ++ (well_detach sc).calls }
  else if fifo_err ≠ 0 then
    some { ret := ENOMEM, sc := (well_detach { sc with sc_xfer := true }).sc,
           calls := [attach_call.mtx_init, attach_call.usbd_transfer_setup,
                     attach_call.usb_fifo_attach]
             ++ (well_detach { sc with sc_xfer := true }).calls }
  else
    match well_dev_params[driver_info]? with
    | none => none
    | some p =>
      some { ret := 0,
             sc := { sc with sc_xfer := true, sc_params := p, sc_state := 0, sc_errs := 0 },
             calls := [attach_call.mtx_init, attach_call.usbd_transfer_setup,
                       attach_call.usb_fifo_attach, attach_call.device_set_usb_desc] }

/-! ## Log levels (`logging.h` lines 24-49 and 264-274, `well.c` line 31) -/

def LVL_NONE : Int := -1
def LVL_FATAL : Int := 0
def LVL_ERROR : Int := 1
def LVL_WARN : Int := 2
def LVL_MESSAGE : Int := 3
def LVL_INFO : Int := 4
def LVL_DEBUG : Int := 5
def LVL_VERBOSE : Int := 6
def LVL_TRACE : Int := 7

/-- The default `LOG_LVL_MAX` (no override is defined before the include). -/
def LOG_LVL_MAX : Int := 5

/-- The default `LOG_LVL_MIN`. -/
def LOG_LVL_MIN : Int := 0

/-- The value `SET_SYSTEM_LOG_LVL(name, lvl)` stores in the `unsigned int`
variable `name_log_lvl`, for an `int` argument. -/
def SET_SYSTEM_LOG_LVL (lvl : Int) : Nat :=
  u32 (if lvl > LOG_LVL_MAX then LOG_LVL_MAX
       else if lvl < LOG_LVL_MIN then LOG_LVL_MIN else lvl)

/-- The initial value given by `DEFINE_LOG_SYSTEM(name, init)`. -/
def DEFINE_LOG_SYSTEM (init : Int) : Nat :=
  u32 (if init > LOG_LVL_MAX then LOG_LVL_MAX
       else if init < LOG_LVL_MIN then LOG_LVL_MIN else init)

/-- The variable defined by `DEFINE_LOG_SYSTEM(well, LVL_DEBUG)`. -/
def well_log_lvl : Nat := DEFINE_LOG_SYSTEM LVL_DEBUG

/-! ## Concrete inputs used by the examples -/

/-- A transport on which every control request completes normally and leaves the
buffer as it is. -/
def host_ok : usb_host Unit :=
  { usbd_do_request := fun d _ data => (usb_error_t.USB_ERR_NORMAL_COMPLETION, data, d) }

/-- The profile `well_dev_params[DEV_WELLSPRING]` (474-byte frames). -/
def params_wellspring : struct_well_dev_params := well_dev_params[0]

/-- The profile `well_dev_params[DEV_WELLSPRING3]` (478-byte frames). -/
def params_wellspring3 : struct_well_dev_params := well_dev_params[2]

/-- Five completions on the 474-byte profile: short frames and transport errors,
the third one arriving while the FIFO is full. -/
def five_bad_completions : List completion :=
  [ { state := usb_state.USB_ST_TRANSFERRED, len := 10,
      error := usb_error_t.USB_ERR_NORMAL_COMPLETION, fifo := { put_bytes_max := 8, queue := [] } },
    { state := usb_state.USB_ST_ERROR, len := 0,
      error := usb_error_t.USB_ERR_OTHER 1, fifo := { put_bytes_max := 8, queue := [] } },
    { state := usb_state.USB_ST_TRANSFERRED, len := 0,
      error := usb_error_t.USB_ERR_NORMAL_COMPLETION, fifo := { put_bytes_max := 0, queue := [] } },
    { state := usb_state.USB_ST_ERROR, len := 0,
      error := usb_error_t.USB_ERR_OTHER 7, fifo := { put_bytes_max := 8, queue := [] } },
    { state := usb_state.USB_ST_TRANSFERRED, len := 473,
      error := usb_error_t.USB_ERR_NORMAL_COMPLETION, fifo := { put_bytes_max := 8, queue := [] } } ]

/-- Five short-or-error completions on the 474-byte profile, the second one a
cancellation; the FIFO has room at every one of them. -/
def five_completions_with_cancel : List completion :=
  [ { state := usb_state.USB_ST_TRANSFERRED, len := 10,
      error := usb_error_t.USB_ERR_NORMAL_COMPLETION, fifo := { put_bytes_max := 8, queue := [] } },
    { state := usb_state.USB_ST_ERROR, len := 0,
      error := usb_error_t.USB_ERR_CANCELLED, fifo := { put_bytes_max := 8, queue := [] } },
    { state := usb_state.USB_ST_TRANSFERRED, len := 20,
      error := usb_error_t.USB_ERR_NORMAL_COMPLETION, fifo := { put_bytes_max := 8, queue := [] } },
    { state := usb_state.USB_ST_ERROR, len := 0,
      error := usb_error_t.USB_ERR_OTHER 2, fifo := { put_bytes_max := 8, queue := [] } },
    { state := usb_state.USB_ST_TRANSFERRED, len := 30,
      error := usb_error_t.USB_ERR_NORMAL_COMPLETION, fifo := { put_bytes_max := 8, queue := [] } } ]

/-- A softc bound to profile `p`, with error counter `errs` and an RX FIFO that
reports `cap` free bytes. -/
def softc_example (p : struct_well_dev_params) (errs cap : Nat) : well_softc :=
  { sc_mode_bytes := [0, 0, 0, 0, 0, 0, 0, 0],
    sc_xfer := true,
    sc_fifo := { put_bytes_max := cap, queue := [] },
    sc_params := p,
    sc_pollrate := 0,
    sc_state := 0,
    sc_errs := errs }

/-- The channel right after attach on the 474-byte profile: counter 0, nothing in
flight. -/
def attach_state : drv_state Unit :=
  { sc := softc_example params_wellspring 0 8, udev := (), transferring := false }

/-- A history of the channel: start, five short-or-error completions (the last one a
cancellation), then a stop and a new start. -/
def channel_events : List drv_event :=
  [ drv_event.start_read,
    drv_event.intr usb_state.USB_ST_SETUP 0 usb_error_t.USB_ERR_NORMAL_COMPLETION,
    drv_event.intr usb_state.USB_ST_TRANSFERRED 10 usb_error_t.USB_ERR_NORMAL_COMPLETION,
    drv_event.intr usb_state.USB_ST_ERROR 0 (usb_error_t.USB_ERR_OTHER 1),
    drv_event.intr usb_state.USB_ST_TRANSFERRED 0 usb_error_t.USB_ERR_NORMAL_COMPLETION,
    drv_event.intr usb_state.USB_ST_ERROR 0 (usb_error_t.USB_ERR_OTHER 2),
    drv_event.intr usb_state.USB_ST_ERROR 0 usb_error_t.USB_ERR_CANCELLED,
    drv_event.stop_read,
    drv_event.start_read,
    drv_event.intr usb_state.USB_ST_SETUP 0 usb_error_t.USB_ERR_NORMAL_COMPLETION ]

/-- The state `channel_events` leads to from `attach_state`. -/
def halted_state : drv_state Unit :=
  { sc := { softc_example params_wellspring 5 8 with
              sc_mode_bytes := [1, 0, 0, 0, 0, 0, 0, 0] },
    udev := (), transferring := false }

/-! ## Helper lemmas -/

theorem u32_of_nonneg_lt (x : Int) (n : Nat) (h0 : 0 ≤ x) (h1 : x < n) :
    u32 x < n ∧ ¬ (u32 x > n) := by
  unfold u32
  omega

theorem u32_toInt32 (n : Nat) (h : n < 2 ^ 32) : u32 (toInt32 n) = n := by
  unfold u32 toInt32
  split <;> omega

theorem u32_of_gt (x : Int) (n : Nat) (h0 : (n : Int) < x) (h1 : x < 2 ^ 32) :
    u32 x > n := by
  unfold u32
  omega

theorem u32_natCast (n : Nat) (h : n < 2 ^ 32) : u32 (n : Int) = n := by
  unfold u32
  omega

theorem tr_setup_sc (sc : well_softc) (calls : List usb_call) (reads : List Nat) :
    (tr_setup sc calls reads).sc = sc := by
  unfold tr_setup
  split_ifs <;> rfl

theorem tr_setup_data_reads (sc : well_softc) (calls : List usb_call) (reads : List Nat) :
    (tr_setup sc calls reads).data_reads = reads := by
  unfold tr_setup
  split_ifs <;> rfl

theorem tr_setup_calls (sc : well_softc) (calls : List usb_call) (reads : List Nat) :
    (tr_setup sc calls reads).calls =
      calls ++ (if sc.sc_errs < 5 ∧ usb_fifo_put_bytes_max sc.sc_fifo ≠ 0 then
        [usb_call.usbd_xfer_set_frame_len 0 sc.sc_params.trackpad_datalen,
         usb_call.usbd_transfer_submit] else []) := by
  unfold tr_setup
  split_ifs <;> simp_all

theorem fifo_puts_tr_setup (sc : well_softc) (calls : List usb_call) (reads : List Nat) :
    fifo_puts (tr_setup sc calls reads).calls = fifo_puts calls := by
  rw [tr_setup_calls]
  unfold fifo_puts
  split_ifs <;> simp

theorem copy_outs_tr_setup (sc : well_softc) (calls : List usb_call) (reads : List Nat) :
    copy_outs (tr_setup sc calls reads).calls = copy_outs calls := by
  rw [tr_setup_calls]
  unfold copy_outs
  split_ifs <;> simp

theorem submits_tr_setup (sc : well_softc) (calls : List usb_call) (reads : List Nat) :
    submits (tr_setup sc calls reads).calls =
      (submits calls || decide (sc.sc_errs < 5 ∧ usb_fifo_put_bytes_max sc.sc_fifo ≠ 0)) := by
  rw [tr_setup_calls]
  unfold submits
  split_ifs with h <;> simp [h]

/-- The short-frame arm of `well_trackpad_intr`. -/
theorem intr_short (sc : well_softc) (len : Int) (error : usb_error_t)
    (h0 : 0 ≤ len) (h1 : len < (sc.sc_params.trackpad_datalen : Int)) :
    well_trackpad_intr sc usb_state.USB_ST_TRANSFERRED len error =
      tr_setup { sc with sc_errs := (sc.sc_errs + 1) % 2 ^ 32 } [] [] := by
  have h := u32_of_nonneg_lt len sc.sc_params.trackpad_datalen h0 h1
  simp only [well_trackpad_intr]
  rw [if_neg h.2, if_pos h.1]

/-- The full-length arm of `well_trackpad_intr`, for a length that is at least the
expected one. -/
theorem intr_full (sc : well_softc) (len : Int) (error : usb_error_t)
    (hp : sc.sc_params.trackpad_datalen < 2 ^ 32)
    (h0 : (sc.sc_params.trackpad_datalen : Int) ≤ len) (h1 : len < 2 ^ 32) :
    well_trackpad_intr sc usb_state.USB_ST_TRANSFERRED len error =
      tr_setup { sc with sc_errs := 0 }
        [usb_call.usbd_copy_out 0 0 sc.sc_params.trackpad_datalen]
        (List.range (WELL_TYPE_2_OFFSET + WELL_FINGER_DATALEN)) := by
  simp only [well_trackpad_intr]
  by_cases hgt : u32 len > sc.sc_params.trackpad_datalen
  · rw [if_pos hgt, u32_toInt32 _ hp, if_neg (Nat.lt_irrefl _)]
  · have hle : ¬ (u32 len < sc.sc_params.trackpad_datalen) := by
      unfold u32 at hgt ⊢
      omega
    rw [if_neg hgt, if_neg hle]

/-- Every profile of the table has a frame length of 474 or 478 bytes. -/
theorem well_dev_params_datalen (p : struct_well_dev_params) (hp : p ∈ well_dev_params) :
    p.trackpad_datalen = 474 ∨ p.trackpad_datalen = 478 := by
  simp only [well_dev_params, List.mem_cons, List.mem_singleton, List.not_mem_nil,
    or_false] at hp
  rcases hp with h | h | h | h | h | h | h | h | h <;> subst h <;> decide

/-! ## Claims -/

/-- C1: a TRANSFERRED completion with `0 <= len < trackpad_datalen` is dropped:
the only change to the softc is that the error counter becomes `c + 1` modulo
`2 ^ 32`; nothing is copied out of the frame, the local buffer is not read and
nothing is put into the RX FIFO. -/
theorem C1_short_frame_dropped (sc : well_softc) (len : Int) (error : usb_error_t)
    (h0 : 0 ≤ len) (h1 : len < (sc.sc_params.trackpad_datalen : Int)) :
    (well_trackpad_intr sc usb_state.USB_ST_TRANSFERRED len error).sc
        = { sc with sc_errs := (sc.sc_errs + 1) % 2 ^ 32 }
      ∧ copy_outs (well_trackpad_intr sc usb_state.USB_ST_TRANSFERRED len error).calls = []
      ∧ fifo_puts (well_trackpad_intr sc usb_state.USB_ST_TRANSFERRED len error).calls = 0
      ∧ (well_trackpad_intr sc usb_state.USB_ST_TRANSFERRED len error).data_reads = [] := by
  rw [intr_short sc len error h0 h1, tr_setup_sc, copy_outs_tr_setup, fifo_puts_tr_setup,
    tr_setup_data_reads]
  exact ⟨rfl, rfl, rfl, rfl⟩

/-- Witness for C1: a 100-byte frame on the 474-byte profile with counter 3. -/
theorem C1_short_frame_dropped_witness :
    (0 : Int) ≤ 100
      ∧ (100 : Int) < ((softc_example params_wellspring 3 8).sc_params.trackpad_datalen : Int)
      ∧ (well_trackpad_intr (softc_example params_wellspring 3 8)
          usb_state.USB_ST_TRANSFERRED 100 usb_error_t.USB_ERR_NORMAL_COMPLETION).sc.sc_errs = 4 :=
  ⟨by decide, by decide,
    by rw [(C1_short_frame_dropped (softc_example params_wellspring 3 8) 100
      usb_error_t.USB_ERR_NORMAL_COMPLETION (by decide) (by decide)).1]; rfl⟩

/-- C2: a TRANSFERRED completion whose reported length equals `trackpad_datalen`
leaves the error counter at 0, whatever it was before. -/
theorem C2_good_frame_resets_counter (sc : well_softc) (len : Int) (error : usb_error_t)
    (hp : sc.sc_params.trackpad_datalen < 2 ^ 32)
    (hlen : len = (sc.sc_params.trackpad_datalen : Int)) :
    (well_trackpad_intr sc usb_state.USB_ST_TRANSFERRED len error).sc.sc_errs = 0 := by
  rw [intr_full sc len error hp (le_of_eq hlen.symm) (by omega), tr_setup_sc]

/-- Witness for C2: a 478-byte frame on a 478-byte profile after 4 errors. -/
theorem C2_good_frame_resets_counter_witness :
    (softc_example params_wellspring3 4 8).sc_params.trackpad_datalen < 2 ^ 32
      ∧ (478 : Int) = ((softc_example params_wellspring3 4 8).sc_params.trackpad_datalen : Int)
      ∧ (well_trackpad_intr (softc_example params_wellspring3 4 8)
          usb_state.USB_ST_TRANSFERRED 478 usb_error_t.USB_ERR_NORMAL_COMPLETION).sc.sc_errs = 0 :=
  ⟨by decide, by decide,
    C2_good_frame_resets_counter (softc_example params_wellspring3 4 8) 478
      usb_error_t.USB_ERR_NORMAL_COMPLETION (by decide) (by decide)⟩

/-- C3 (as stated) fails: a 479-byte frame on a 478-byte profile is clamped and
accepted, but no result is delivered: the callback makes no enqueue into the RX
FIFO and the FIFO is as before. -/
theorem C3_oversize_not_delivered :
    ((softc_example params_wellspring3 0 8).sc_params.trackpad_datalen : Int) < 479
      ∧ fifo_puts (well_trackpad_intr (softc_example params_wellspring3 0 8)
          usb_state.USB_ST_TRANSFERRED 479 usb_error_t.USB_ERR_NORMAL_COMPLETION).calls = 0
      ∧ (well_trackpad_intr (softc_example params_wellspring3 0 8)
          usb_state.USB_ST_TRANSFERRED 479 usb_error_t.USB_ERR_NORMAL_COMPLETION).sc.sc_fifo
          = (softc_example params_wellspring3 0 8).sc_fifo := by
  refine ⟨by decide, ?_, ?_⟩
  · rw [intr_full _ _ _ (by decide) (by decide) (by decide), fifo_puts_tr_setup]
    rfl
  · rw [intr_full _ _ _ (by decide) (by decide) (by decide), tr_setup_sc]

/-- C3 (amended): for every profile of the table and every reported length
`len > trackpad_datalen`, the callback behaves exactly as for a frame of length
`trackpad_datalen`: the counter is reset to 0 and nothing else in the softc
changes, exactly `trackpad_datalen` bytes are copied out of frame 0, which is at
most the 478 bytes of the local buffer, every index of the local buffer read
afterwards is below 478, and nothing is put into the RX FIFO. -/
theorem C3_oversize_frame_clamped (sc : well_softc) (len : Int) (error : usb_error_t)
    (hp : sc.sc_params ∈ well_dev_params)
    (h0 : (sc.sc_params.trackpad_datalen : Int) < len) (h1 : len < 2 ^ 31) :
    well_trackpad_intr sc usb_state.USB_ST_TRANSFERRED len error
        = well_trackpad_intr sc usb_state.USB_ST_TRANSFERRED
            (sc.sc_params.trackpad_datalen : Int) error
      ∧ (well_trackpad_intr sc usb_state.USB_ST_TRANSFERRED len error).sc
          = { sc with sc_errs := 0 }
      ∧ copy_outs (well_trackpad_intr sc usb_state.USB_ST_TRANSFERRED len error).calls
          = [sc.sc_params.trackpad_datalen]
      ∧ sc.sc_params.trackpad_datalen ≤ data_size
      ∧ data_size = 478
      ∧ (∀ i ∈ (well_trackpad_intr sc usb_state.USB_ST_TRANSFERRED len error).data_reads,
          i < data_size)
      ∧ fifo_puts (well_trackpad_intr sc usb_state.USB_ST_TRANSFERRED len error).calls = 0 := by
  have hd := well_dev_params_datalen sc.sc_params hp
  have hlt : sc.sc_params.trackpad_datalen < 2 ^ 32 := by omega
  have hsz : data_size = 478 := by decide
  rw [intr_full sc len error hlt (le_of_lt h0) (by omega),
    intr_full sc _ error hlt (le_refl _) (by omega), tr_setup_sc, copy_outs_tr_setup,
    fifo_puts_tr_setup, tr_setup_data_reads]
  refine ⟨rfl, rfl, rfl, by omega, hsz, ?_, rfl⟩
  intro i hi
  rw [List.mem_range] at hi
  exact hi

/-- Witness for C3 (amended): a 600-byte frame on the 474-byte profile. -/
theorem C3_oversize_frame_clamped_witness :
    (softc_example params_wellspring 2 8).sc_params ∈ well_dev_params
      ∧ ((softc_example params_wellspring 2 8).sc_params.trackpad_datalen : Int) < 600
      ∧ (600 : Int) < 2 ^ 31
      ∧ copy_outs (well_trackpad_intr (softc_example params_wellspring 2 8)
          usb_state.USB_ST_TRANSFERRED 600 usb_error_t.USB_ERR_NORMAL_COMPLETION).calls
          = [(softc_example params_wellspring 2 8).sc_params.trackpad_datalen] :=
  ⟨by decide, by decide, by decide,
    (C3_oversize_frame_clamped (softc_example params_wellspring 2 8) 600
      usb_error_t.USB_ERR_NORMAL_COMPLETION (by decide) (by decide) (by decide)).2.2.1⟩

theorem submits_tr_setup_of_ge (sc : well_softc) (calls : List usb_call) (reads : List Nat)
    (h : 5 ≤ sc.sc_errs) : submits (tr_setup sc calls reads).calls = submits calls := by
  rw [submits_tr_setup]
  have h1 : ¬ (sc.sc_errs < 5 ∧ usb_fifo_put_bytes_max sc.sc_fifo ≠ 0) := by omega
  rw [decide_eq_false h1, Bool.or_false]

/-- One short-or-error completion: the counter advances by one (to `k`) and the
callback resubmits exactly when it was not a cancellation, the new counter is
below 5 and the sink has room. -/
theorem intr_short_or_error (sc : well_softc) (c : completion) (k : Nat)
    (hk : (sc.sc_errs + 1) % 2 ^ 32 = k) (h : short_or_error sc.sc_params c) :
    (well_trackpad_intr { sc with sc_fifo := c.fifo } c.state c.len c.error).sc
        = { sc with sc_fifo := c.fifo, sc_errs := k }
      ∧ submits (well_trackpad_intr { sc with sc_fifo := c.fifo } c.state c.len c.error).calls
        = (!is_cancel c && decide (k < 5 ∧ usb_fifo_put_bytes_max c.fifo ≠ 0)) := by
  subst hk
  rcases h with ⟨hs, h0, h1⟩ | hs
  · rw [hs, intr_short { sc with sc_fifo := c.fifo } c.len c.error h0 h1, tr_setup_sc,
      submits_tr_setup]
    simp [is_cancel, hs, submits]
  · by_cases hc : c.error = usb_error_t.USB_ERR_CANCELLED
    · simp [well_trackpad_intr, hs, hc, is_cancel, submits]
    · simp only [well_trackpad_intr, hs, ne_eq, hc, not_false_eq_true, if_true, tr_setup_sc,
        submits_tr_setup]
      simp [is_cancel, hs, hc, submits]

/-- C4 (as stated) fails: among five consecutive short-or-error completions from
counter 0, all arriving while the sink has capacity, the second one is a transport
error with `USB_ERR_CANCELLED`; the callback does not resubmit after it although
it is one of the first four and the sink has room. -/
theorem C4_cancel_does_not_resubmit :
    (softc_example params_wellspring 0 8).sc_errs = 0
      ∧ five_completions_with_cancel.length = 5
      ∧ (∀ c ∈ five_completions_with_cancel,
          short_or_error (softc_example params_wellspring 0 8).sc_params c)
      ∧ (∀ c ∈ five_completions_with_cancel, usb_fifo_put_bytes_max c.fifo ≠ 0)
      ∧ (well_trackpad_run (softc_example params_wellspring 0 8)
          five_completions_with_cancel).2.map (fun r => submits r.calls)
          = [true, false, true, true, false]
      ∧ ((well_trackpad_run (softc_example params_wellspring 0 8)
          five_completions_with_cancel).2.map (fun r => submits r.calls)).take 4
          ≠ [true, true, true, true] := by
  decide

/-- C4 (amended): starting from counter 0, five consecutive completions that are
short frames or transport errors leave the counter at 5; each of the first four
resubmits exactly when it is not a `USB_ERR_CANCELLED` completion and the sink has
capacity (a cancellation never resubmits), and the fifth submits nothing.  More
generally, an invocation that ends with the counter at 5 or more has submitted
nothing, and the setup step entered with a counter of 5 or more makes no call,
whatever the capacity of the sink. -/
theorem C4_bounded_retry :
    (∀ (sc : well_softc) (cs : List completion), sc.sc_errs = 0 → cs.length = 5 →
        (∀ c ∈ cs, short_or_error sc.sc_params c) →
        (well_trackpad_run sc cs).1.sc_errs = 5
          ∧ (well_trackpad_run sc cs).2.map (fun r => submits r.calls)
            = (cs.take 4).map
                (fun c => !is_cancel c && decide (usb_fifo_put_bytes_max c.fifo ≠ 0))
              ++ [false])
      ∧ (∀ (sc : well_softc) (state : usb_state) (len : Int) (error : usb_error_t),
          5 ≤ (well_trackpad_intr sc state len error).sc.sc_errs →
          submits (well_trackpad_intr sc state len error).calls = false)
      ∧ (∀ (sc : well_softc) (calls : List usb_call) (reads : List Nat),
          5 ≤ sc.sc_errs → (tr_setup sc calls reads).calls = calls) := by
  refine ⟨?_, ?_, ?_⟩
  · intro sc cs h0 hlen hbad
    match cs, hlen with
    | [c1, c2, c3, c4, c5], _ =>
      have b1 := intr_short_or_error sc c1 1 (by rw [h0]; rfl) (hbad c1 (by simp))
      have b2 := intr_short_or_error { sc with sc_fifo := c1.fifo, sc_errs := 1 } c2 2 rfl
        (hbad c2 (by simp))
      have b3 := intr_short_or_error { sc with sc_fifo := c2.fifo, sc_errs := 2 } c3 3 rfl
        (hbad c3 (by simp))
      have b4 := intr_short_or_error { sc with sc_fifo := c3.fifo, sc_errs := 3 } c4 4 rfl
        (hbad c4 (by simp))
      have b5 := intr_short_or_error { sc with sc_fifo := c4.fifo, sc_errs := 4 } c5 5 rfl
        (hbad c5 (by simp))
      simp only [] at b2 b3 b4 b5
      simp only [well_trackpad_run, List.map_cons, List.map_nil, List.take_succ_cons,
        List.take_zero, List.cons_append, List.nil_append, b1.1, b1.2, b2.1, b2.2, b3.1, b3.2,
        b4.1, b4.2, b5.1, b5.2]
      simp
  · intro sc state len error h5
    cases state with
    | USB_ST_SETUP =>
      simp only [well_trackpad_intr, tr_setup_sc] at h5 ⊢
      rw [submits_tr_setup_of_ge _ _ _ h5]
      rfl
    | USB_ST_TRANSFERRED =>
      simp only [well_trackpad_intr] at h5 ⊢
      split_ifs at h5 ⊢ <;> simp only [tr_setup_sc] at h5
      all_goals (rw [submits_tr_setup_of_ge _ _ _ h5]; rfl)
    | USB_ST_ERROR =>
      simp only [well_trackpad_intr] at h5 ⊢
      split_ifs at h5 ⊢
      · simp only [tr_setup_sc] at h5
        rw [submits_tr_setup_of_ge _ _ _ h5]
        rfl
      · rfl
  · intro sc calls reads h5
    rw [tr_setup_calls]
    have : ¬ (sc.sc_errs < 5 ∧ usb_fifo_put_bytes_max sc.sc_fifo ≠ 0) := by omega
    rw [if_neg this, List.append_nil]

/-- Witness for C4 (amended): five short-or-error completions on the 474-byte
profile, none of them a cancellation. -/
theorem C4_bounded_retry_witness :
    (softc_example params_wellspring 0 8).sc_errs = 0
      ∧ five_bad_completions.length = 5
      ∧ (∀ c ∈ five_bad_completions,
          short_or_error (softc_example params_wellspring 0 8).sc_params c)
      ∧ (well_trackpad_run (softc_example params_wellspring 0 8) five_bad_completions).1.sc_errs
          = 5
      ∧ (well_trackpad_run (softc_example params_wellspring 0 8) five_bad_completions).2.map
          (fun r => submits r.calls) = [true, true, false, true, false] :=
  ⟨by decide, by decide, by decide,
    (C4_bounded_retry.1 (softc_example params_wellspring 0 8) five_bad_completions
      (by decide) (by decide) (by decide)).1,
    by decide⟩

/-- The function `well_set_device_mode` writes only `sc_mode_bytes`. -/
theorem well_set_device_mode_frame {D : Type} (h : usb_host D) (udev : D) (sc : well_softc)
    (mode : Nat) :
    (well_set_device_mode h udev sc mode).2.1.sc_errs = sc.sc_errs
      ∧ (well_set_device_mode h udev sc mode).2.1.sc_params = sc.sc_params
      ∧ (well_set_device_mode h udev sc mode).2.1.sc_fifo = sc.sc_fifo := by
  unfold well_set_device_mode
  dsimp only
  split_ifs <;> exact ⟨rfl, rfl, rfl⟩

/-- The function `well_set_mode` writes only `sc_mode_bytes`. -/
theorem well_set_mode_frame {D : Type} (h : usb_host D) (udev : D) (sc : well_softc)
    (mode : Nat) :
    (well_set_mode h udev sc mode).2.1.sc_errs = sc.sc_errs
      ∧ (well_set_mode h udev sc mode).2.1.sc_params = sc.sc_params
      ∧ (well_set_mode h udev sc mode).2.1.sc_fifo = sc.sc_fifo := by
  unfold well_set_mode
  dsimp only
  split_ifs
  · exact ⟨rfl, rfl, rfl⟩
  · exact well_set_device_mode_frame h _ { sc with sc_mode_bytes := _ } mode
  · exact well_set_device_mode_frame h _ { sc with sc_mode_bytes := _ } mode

/-- The function `well_stop_read` leaves the counter, the profile and the FIFO as
they are. -/
theorem well_stop_read_frame {D : Type} (h : usb_host D) (udev : D) (sc : well_softc) :
    (well_stop_read h udev sc).sc.sc_errs = sc.sc_errs
      ∧ (well_stop_read h udev sc).sc.sc_params = sc.sc_params
      ∧ (well_stop_read h udev sc).sc.sc_fifo = sc.sc_fifo :=
  well_set_mode_frame h udev sc HID_MODE

/-- The function `well_start_read` leaves the counter, the profile and the FIFO as
they are. -/
theorem well_start_read_frame {D : Type} (h : usb_host D) (udev : D) (sc : well_softc) :
    (well_start_read h udev sc).sc.sc_errs = sc.sc_errs
      ∧ (well_start_read h udev sc).sc.sc_params = sc.sc_params
      ∧ (well_start_read h udev sc).sc.sc_fifo = sc.sc_fifo := by
  simp only [well_start_read]
  split_ifs <;> first
    | exact well_set_mode_frame h udev { sc with sc_pollrate := 0 } RAW_SENSOR_MODE
    | exact well_set_mode_frame h udev sc RAW_SENSOR_MODE

/-- C5 (as stated) fails: on a channel halted at counter 5, `well_stop_read`
followed by `well_start_read` (every control request succeeding) leaves the counter
at 5, and the SETUP invocation that follows submits nothing although the sink has
capacity. -/
theorem C5_restart_keeps_counter :
    (well_start_read host_ok
        (well_stop_read host_ok () (softc_example params_wellspring3 5 8)).udev
        (well_stop_read host_ok () (softc_example params_wellspring3 5 8)).sc).sc.sc_errs = 5
      ∧ usb_fifo_put_bytes_max
          (well_start_read host_ok
            (well_stop_read host_ok () (softc_example params_wellspring3 5 8)).udev
            (well_stop_read host_ok () (softc_example params_wellspring3 5 8)).sc).sc.sc_fifo ≠ 0
      ∧ submits (well_trackpad_intr
          (well_start_read host_ok
            (well_stop_read host_ok () (softc_example params_wellspring3 5 8)).udev
            (well_stop_read host_ok () (softc_example params_wellspring3 5 8)).sc).sc
          usb_state.USB_ST_SETUP 0 usb_error_t.USB_ERR_NORMAL_COMPLETION).calls = false := by
  decide

/-- C5 (amended): for every softc whose error counter has reached 5, every transport
and every device state, `well_stop_read` followed by `well_start_read` leaves the
error counter unchanged (neither function writes `sc_errs`), and the SETUP
invocation of `well_trackpad_intr` that follows submits no transfer, whatever the
capacity of the sink. -/
theorem C5_restart_does_not_recover {D : Type} (h : usb_host D) (udev : D) (sc : well_softc)
    (h5 : 5 ≤ sc.sc_errs) :
    (well_start_read h (well_stop_read h udev sc).udev (well_stop_read h udev sc).sc).sc.sc_errs
        = sc.sc_errs
      ∧ ∀ (fifo : usb_fifo) (len : Int) (error : usb_error_t),
          (well_trackpad_intr
            { (well_start_read h (well_stop_read h udev sc).udev
                (well_stop_read h udev sc).sc).sc with sc_fifo := fifo }
            usb_state.USB_ST_SETUP len error).calls = [] := by
  have e : (well_start_read h (well_stop_read h udev sc).udev
      (well_stop_read h udev sc).sc).sc.sc_errs = sc.sc_errs := by
    rw [(well_start_read_frame h _ _).1, (well_stop_read_frame h udev sc).1]
  refine ⟨e, ?_⟩
  intro fifo len error
  simp only [well_trackpad_intr]
  rw [tr_setup_calls]
  simp only [e]
  have : ¬ (sc.sc_errs < 5 ∧ usb_fifo_put_bytes_max fifo ≠ 0) := by omega
  rw [if_neg this]
  rfl

/-- Witness for C5 (amended): the halted 478-byte channel with a roomy sink. -/
theorem C5_restart_does_not_recover_witness :
    5 ≤ (softc_example params_wellspring3 5 8).sc_errs
      ∧ (well_start_read host_ok
          (well_stop_read host_ok () (softc_example params_wellspring3 5 8)).udev
          (well_stop_read host_ok () (softc_example params_wellspring3 5 8)).sc).sc.sc_errs
          = (softc_example params_wellspring3 5 8).sc_errs :=
  ⟨by decide,
    (C5_restart_does_not_recover host_ok () (softc_example params_wellspring3 5 8)
      (by decide)).1⟩

/-- C6: for every transfer error other than `USB_ERR_CANCELLED` the callback
increments the error counter by one (modulo `2 ^ 32`, the field being unsigned) and
changes nothing else in the softc; its calls are a stall-clear followed by the setup
rule: frame 0 is set to the profile's `trackpad_datalen` and the transfer is
submitted exactly when the new counter is below 5 and the sink has capacity. -/
theorem C6_transport_error (sc : well_softc) (len : Int) (error : usb_error_t)
    (hne : error ≠ usb_error_t.USB_ERR_CANCELLED) :
    (well_trackpad_intr sc usb_state.USB_ST_ERROR len error).sc
        = { sc with sc_errs := (sc.sc_errs + 1) % 2 ^ 32 }
      ∧ (well_trackpad_intr sc usb_state.USB_ST_ERROR len error).calls
        = usb_call.usbd_xfer_set_stall ::
            (if (sc.sc_errs + 1) % 2 ^ 32 < 5 ∧ usb_fifo_put_bytes_max sc.sc_fifo ≠ 0 then
              [usb_call.usbd_xfer_set_frame_len 0 sc.sc_params.trackpad_datalen,
               usb_call.usbd_transfer_submit]
            else []) := by
  simp only [well_trackpad_intr, if_pos hne]
  rw [tr_setup_sc, tr_setup_calls]
  exact ⟨rfl, rfl⟩

/-- Witness for C6: a stall on the 474-byte profile with counter 1. -/
theorem C6_transport_error_witness :
    usb_error_t.USB_ERR_OTHER 3 ≠ usb_error_t.USB_ERR_CANCELLED
      ∧ (well_trackpad_intr (softc_example params_wellspring 1 8) usb_state.USB_ST_ERROR 0
          (usb_error_t.USB_ERR_OTHER 3)).calls
        = [usb_call.usbd_xfer_set_stall, usb_call.usbd_xfer_set_frame_len 0 474,
           usb_call.usbd_transfer_submit] :=
  ⟨by decide,
    by rw [(C6_transport_error (softc_example params_wellspring 1 8) 0
      (usb_error_t.USB_ERR_OTHER 3) (by decide)).2]; decide⟩

/-- C7 (as stated) fails: a cancellation arriving with counter 2 leaves the counter
at 3, not 2. -/
theorem C7_cancel_increments_counter :
    (well_trackpad_intr (softc_example params_wellspring 2 8) usb_state.USB_ST_ERROR 0
        usb_error_t.USB_ERR_CANCELLED).sc.sc_errs = 3
      ∧ (well_trackpad_intr (softc_example params_wellspring 2 8) usb_state.USB_ST_ERROR 0
        usb_error_t.USB_ERR_CANCELLED).sc.sc_errs
          ≠ (softc_example params_wellspring 2 8).sc_errs := by
  decide

/-- C7 (amended): in the error state with `USB_ERR_CANCELLED` the callback makes no
host call at all (no submission, no stall-clear), reads nothing, and increments the
error counter by one modulo `2 ^ 32` (the increment precedes the cancellation test),
leaving the rest of the softc unchanged. -/
theorem C7_cancelled_transfer (sc : well_softc) (len : Int) :
    well_trackpad_intr sc usb_state.USB_ST_ERROR len usb_error_t.USB_ERR_CANCELLED
      = { sc := { sc with sc_errs := (sc.sc_errs + 1) % 2 ^ 32 }, calls := [],
          data_reads := [] } := by
  simp [well_trackpad_intr]

/-- The callback changes the counter in one of three ways, and not at all in the
setup state. -/
theorem intr_errs_cases (sc : well_softc) (state : usb_state) (len : Int)
    (error : usb_error_t) :
    ((well_trackpad_intr sc state len error).sc.sc_errs = sc.sc_errs
        ∨ (well_trackpad_intr sc state len error).sc.sc_errs = 0
        ∨ (well_trackpad_intr sc state len error).sc.sc_errs = (sc.sc_errs + 1) % 2 ^ 32)
      ∧ (state = usb_state.USB_ST_SETUP →
          (well_trackpad_intr sc state len error).sc.sc_errs = sc.sc_errs) := by
  cases state <;> simp only [well_trackpad_intr]
  · rw [tr_setup_sc]
    exact ⟨Or.inl rfl, fun _ => rfl⟩
  · split_ifs <;> rw [tr_setup_sc] <;> simp
  · split_ifs
    · rw [tr_setup_sc]
      simp
    · simp

/-- A callback that submits ends with the counter below 5. -/
theorem intr_submits_lt (sc : well_softc) (state : usb_state) (len : Int)
    (error : usb_error_t)
    (hs : submits (well_trackpad_intr sc state len error).calls = true) :
    (well_trackpad_intr sc state len error).sc.sc_errs < 5 := by
  by_contra hge
  have h5 : 5 ≤ (well_trackpad_intr sc state len error).sc.sc_errs := by omega
  revert hs
  cases state with
  | USB_ST_SETUP =>
    simp only [well_trackpad_intr, tr_setup_sc] at h5 ⊢
    rw [submits_tr_setup_of_ge _ _ _ h5]
    simp [submits]
  | USB_ST_TRANSFERRED =>
    simp only [well_trackpad_intr] at h5 ⊢
    split_ifs at h5 ⊢ <;> simp only [tr_setup_sc] at h5
    all_goals (rw [submits_tr_setup_of_ge _ _ _ h5]; simp [submits])
  | USB_ST_ERROR =>
    simp only [well_trackpad_intr] at h5 ⊢
    split_ifs at h5 ⊢
    · simp only [tr_setup_sc] at h5
      rw [submits_tr_setup_of_ge _ _ _ h5]
      simp [submits]
    · simp [submits]

/-- The invariant of the channel is kept by every step: the counter is at most 5,
and below 5 while a transfer is in flight. -/
theorem drv_step_inv {D : Type} (h : usb_host D) (s s1 : drv_state D) (e : drv_event)
    (hstep : drv_step h s e = some s1)
    (hinv : s.sc.sc_errs ≤ 5 ∧ (s.transferring = true → s.sc.sc_errs < 5)) :
    s1.sc.sc_errs ≤ 5 ∧ (s1.transferring = true → s1.sc.sc_errs < 5) := by
  cases e with
  | start_read =>
    simp only [drv_step, Option.some.injEq] at hstep
    subst hstep
    simp only [(well_start_read_frame h s.udev s.sc).1]
    exact hinv
  | stop_read =>
    simp only [drv_step, Option.some.injEq] at hstep
    subst hstep
    simp only [(well_stop_read_frame h s.udev s.sc).1]
    exact hinv
  | fifo_update f =>
    simp only [drv_step, Option.some.injEq] at hstep
    subst hstep
    exact hinv
  | intr state len error =>
    have hc := intr_errs_cases s.sc state len error
    have hl := intr_submits_lt s.sc state len error
    simp only [drv_step] at hstep
    split_ifs at hstep with h1 h2
    · simp only [Option.some.injEq] at hstep
      subst hstep
      have he := hc.2 h1
      simp only [Bool.or_eq_true]
      refine ⟨by omega, ?_⟩
      rintro (ht | hsub)
      · have := hinv.2 ht
        omega
      · exact hl hsub
    · simp only [Option.some.injEq] at hstep
      subst hstep
      have hlt := hinv.2 h2
      refine ⟨?_, fun hsub => hl hsub⟩
      rcases hc.1 with h0 | h0 | h0 <;> simp only [h0] <;> omega

/-- The invariant of the channel holds after every run that starts in it. -/
theorem drv_run_inv {D : Type} (h : usb_host D) (es : List drv_event) :
    ∀ (s s1 : drv_state D), drv_run h s es = some s1 →
      (s.sc.sc_errs ≤ 5 ∧ (s.transferring = true → s.sc.sc_errs < 5)) →
      (s1.sc.sc_errs ≤ 5 ∧ (s1.transferring = true → s1.sc.sc_errs < 5)) := by
  induction es with
  | nil =>
    intro s s1 hrun hinv
    simp only [drv_run, Option.some.injEq] at hrun
    subst hrun
    exact hinv
  | cons e es ih =>
    intro s s1 hrun hinv
    simp only [drv_run] at hrun
    cases hst : drv_step h s e with
    | none => simp [hst] at hrun
    | some s2 =>
      simp only [hst] at hrun
      exact ih s2 s1 hrun (drv_step_inv h s s2 e hst hinv)

/-- C8: from a state with counter 0 and nothing in flight, every state reached by
starts, stops, changes of the sink's capacity and invocations of
`well_trackpad_intr` (transferred or error completions only while a submitted
transfer is in flight) has `0 <= sc_errs <= 5`. -/
theorem C8_error_counter_bound {D : Type} (h : usb_host D) (s0 s1 : drv_state D)
    (es : List drv_event) (h0 : s0.sc.sc_errs = 0) (ht : s0.transferring = false)
    (hrun : drv_run h s0 es = some s1) :
    0 ≤ s1.sc.sc_errs ∧ s1.sc.sc_errs ≤ 5 := by
  have hinv : s0.sc.sc_errs ≤ 5 ∧ (s0.transferring = true → s0.sc.sc_errs < 5) := by
    rw [h0, ht]
    exact ⟨by omega, fun hf => by cases hf⟩
  exact ⟨Nat.zero_le _, (drv_run_inv h es s0 s1 hrun hinv).1⟩

/-- Witness for C8: a history that drives the counter to 5, where it stays. -/
theorem C8_error_counter_bound_witness :
    attach_state.sc.sc_errs = 0
      ∧ attach_state.transferring = false
      ∧ drv_run host_ok attach_state channel_events = some halted_state
      ∧ halted_state.sc.sc_errs = 5
      ∧ (0 ≤ halted_state.sc.sc_errs ∧ halted_state.sc.sc_errs ≤ 5) :=
  ⟨rfl, rfl, by rfl, rfl,
    C8_error_counter_bound host_ok attach_state halted_state channel_events rfl rfl (by rfl)⟩

/-- C9: in the setup step with counter below 5 a transfer is submitted if and only
if `usb_fifo_put_bytes_max` is not 0; when it is submitted the calls are exactly
"set frame 0 to the profile's `trackpad_datalen`" and "submit"; with no capacity
no call is made; the softc is unchanged in both cases.  The same holds for the
setup step entered from the other arms (`tr_setup` after earlier calls). -/
theorem C9_backpressure_and_arming (sc : well_softc) (len : Int) (error : usb_error_t)
    (calls : List usb_call) (reads : List Nat) (h : sc.sc_errs < 5) :
    (submits (well_trackpad_intr sc usb_state.USB_ST_SETUP len error).calls = true
        ↔ usb_fifo_put_bytes_max sc.sc_fifo ≠ 0)
      ∧ (usb_fifo_put_bytes_max sc.sc_fifo ≠ 0 →
          (well_trackpad_intr sc usb_state.USB_ST_SETUP len error).calls
            = [usb_call.usbd_xfer_set_frame_len 0 sc.sc_params.trackpad_datalen,
               usb_call.usbd_transfer_submit])
      ∧ (usb_fifo_put_bytes_max sc.sc_fifo = 0 →
          (well_trackpad_intr sc usb_state.USB_ST_SETUP len error).calls = [])
      ∧ (well_trackpad_intr sc usb_state.USB_ST_SETUP len error).sc = sc
      ∧ (tr_setup sc calls reads).calls
          = calls ++ (if usb_fifo_put_bytes_max sc.sc_fifo ≠ 0 then
              [usb_call.usbd_xfer_set_frame_len 0 sc.sc_params.trackpad_datalen,
               usb_call.usbd_transfer_submit]
            else [])
      ∧ (tr_setup sc calls reads).sc = sc := by
  simp only [well_trackpad_intr, tr_setup_sc, tr_setup_calls, h, true_and]
  by_cases hc : usb_fifo_put_bytes_max sc.sc_fifo = 0 <;> simp [hc, submits]

/-- Witness for C9: counter 4 and a sink with room on the 478-byte profile. -/
theorem C9_backpressure_and_arming_witness :
    (softc_example params_wellspring3 4 8).sc_errs < 5
      ∧ (well_trackpad_intr (softc_example params_wellspring3 4 8) usb_state.USB_ST_SETUP 0
          usb_error_t.USB_ERR_NORMAL_COMPLETION).calls
        = [usb_call.usbd_xfer_set_frame_len 0 478, usb_call.usbd_transfer_submit] :=
  ⟨by decide,
    (C9_backpressure_and_arming (softc_example params_wellspring3 4 8) 0
      usb_error_t.USB_ERR_NORMAL_COMPLETION [] [] (by decide)).2.1 (by decide)⟩

/-- C10 (as stated) fails: a full-length (474-byte) frame on the 474-byte profile is
accepted, yet the callback makes no enqueue into the RX FIFO (not one), and the FIFO
is as before. -/
theorem C10_full_frame_not_delivered :
    fifo_puts (well_trackpad_intr (softc_example params_wellspring 0 8)
        usb_state.USB_ST_TRANSFERRED 474 usb_error_t.USB_ERR_NORMAL_COMPLETION).calls ≠ 1
      ∧ (well_trackpad_intr (softc_example params_wellspring 0 8)
          usb_state.USB_ST_TRANSFERRED 474 usb_error_t.USB_ERR_NORMAL_COMPLETION).sc.sc_fifo
          = (softc_example params_wellspring 0 8).sc_fifo := by
  rw [intr_full _ _ _ (by decide) (by decide) (by decide), fifo_puts_tr_setup, tr_setup_sc]
  exact ⟨by decide, rfl⟩

/-- C10 (amended): for every completed trackpad transfer whose clamped length equals
the profile's expected length, the callback resets the counter, copies exactly
`trackpad_datalen` bytes of frame 0 into its local buffer and then runs the setup
step; it puts nothing into the RX FIFO.  For short frames and for errors it copies
nothing and puts nothing into the RX FIFO either. -/
theorem C10_good_frame_copied_not_delivered (sc : well_softc) (len : Int)
    (error : usb_error_t) (hp : sc.sc_params.trackpad_datalen < 2 ^ 32) :
    ((sc.sc_params.trackpad_datalen : Int) ≤ len → len < 2 ^ 31 →
        (well_trackpad_intr sc usb_state.USB_ST_TRANSFERRED len error).sc
            = { sc with sc_errs := 0 }
          ∧ (well_trackpad_intr sc usb_state.USB_ST_TRANSFERRED len error).calls
            = usb_call.usbd_copy_out 0 0 sc.sc_params.trackpad_datalen ::
                (if usb_fifo_put_bytes_max sc.sc_fifo ≠ 0 then
                  [usb_call.usbd_xfer_set_frame_len 0 sc.sc_params.trackpad_datalen,
                   usb_call.usbd_transfer_submit]
                else [])
          ∧ fifo_puts (well_trackpad_intr sc usb_state.USB_ST_TRANSFERRED len error).calls = 0)
      ∧ (0 ≤ len → len < (sc.sc_params.trackpad_datalen : Int) →
          copy_outs (well_trackpad_intr sc usb_state.USB_ST_TRANSFERRED len error).calls = []
            ∧ fifo_puts (well_trackpad_intr sc usb_state.USB_ST_TRANSFERRED len error).calls = 0
            ∧ (well_trackpad_intr sc usb_state.USB_ST_TRANSFERRED len error).sc.sc_fifo
              = sc.sc_fifo)
      ∧ (copy_outs (well_trackpad_intr sc usb_state.USB_ST_ERROR len error).calls = []
          ∧ fifo_puts (well_trackpad_intr sc usb_state.USB_ST_ERROR len error).calls = 0
          ∧ (well_trackpad_intr sc usb_state.USB_ST_ERROR len error).sc.sc_fifo = sc.sc_fifo) := by
  refine ⟨?_, ?_, ?_⟩
  · intro h0 h1
    rw [intr_full sc len error hp h0 (by omega), tr_setup_sc, fifo_puts_tr_setup,
      tr_setup_calls]
    refine ⟨rfl, ?_, rfl⟩
    by_cases hc : usb_fifo_put_bytes_max sc.sc_fifo = 0 <;> simp [hc]
  · intro h0 h1
    rw [intr_short sc len error h0 h1, tr_setup_sc, copy_outs_tr_setup, fifo_puts_tr_setup]
    exact ⟨rfl, rfl, rfl⟩
  · simp only [well_trackpad_intr]
    split_ifs
    · rw [tr_setup_sc, copy_outs_tr_setup, fifo_puts_tr_setup]
      exact ⟨rfl, rfl, rfl⟩
    · exact ⟨rfl, rfl, rfl⟩

/-- Witness for C10 (amended): a full-length frame on the 478-byte profile. -/
theorem C10_good_frame_copied_not_delivered_witness :
    (softc_example params_wellspring3 3 8).sc_params.trackpad_datalen < 2 ^ 32
      ∧ (well_trackpad_intr (softc_example params_wellspring3 3 8)
          usb_state.USB_ST_TRANSFERRED 478 usb_error_t.USB_ERR_NORMAL_COMPLETION).calls
        = [usb_call.usbd_copy_out 0 0 478, usb_call.usbd_xfer_set_frame_len 0 478,
           usb_call.usbd_transfer_submit] :=
  ⟨by decide,
    ((C10_good_frame_copied_not_delivered (softc_example params_wellspring3 3 8) 478
      usb_error_t.USB_ERR_NORMAL_COMPLETION (by decide)).1 (by decide) (by decide)).2.1⟩

/-- Every frame-length call of `well_trackpad_intr` sets frame 0 to the profile's
`trackpad_datalen`. -/
theorem intr_set_frame_len (sc : well_softc) (state : usb_state) (len : Int)
    (error : usb_error_t) (frame n : Nat)
    (hmem : usb_call.usbd_xfer_set_frame_len frame n
      ∈ (well_trackpad_intr sc state len error).calls) :
    frame = 0 ∧ n = sc.sc_params.trackpad_datalen := by
  cases state <;> simp only [well_trackpad_intr] at hmem
  · rw [tr_setup_calls] at hmem
    split_ifs at hmem <;> simp at hmem
    exact hmem
  · split_ifs at hmem <;> rw [tr_setup_calls] at hmem <;> split_ifs at hmem <;>
      simp at hmem <;> exact hmem
  · split_ifs at hmem
    · rw [tr_setup_calls] at hmem
      split_ifs at hmem <;> simp at hmem
      exact hmem
    · simp at hmem

/-- C11: the table has 9 entries; every entry has `button_datalen = 4` and
`trackpad_datalen = header + 448` with `448 = 16 * 28`, the header being 26 for
`DEV_WELLSPRING` and `DEV_WELLSPRING2` (474 bytes) and 30 for every other variant
(478 bytes); and `well_trackpad_intr` arms a transfer with exactly the
`trackpad_datalen` of the bound profile: it is the length of every frame-length
call it makes, and the setup step with counter below 5 and a sink with room makes
that call and submits. -/
theorem C11_frame_sizes :
    well_dev_params.length = DEV_WELLSPRING_N
      ∧ DEV_WELLSPRING_N = 9
      ∧ WELL_FINGER_DATALEN = 448
      ∧ 448 = 16 * 28
      ∧ (∀ (i : Nat) (p : struct_well_dev_params), well_dev_params[i]? = some p →
          p.button_datalen = 4
            ∧ p.trackpad_datalen
                = (if i = DEV_WELLSPRING ∨ i = DEV_WELLSPRING2 then 26 else 30) + 448
            ∧ ((i = DEV_WELLSPRING ∨ i = DEV_WELLSPRING2) → p.trackpad_datalen = 474)
            ∧ (¬ (i = DEV_WELLSPRING ∨ i = DEV_WELLSPRING2) → p.trackpad_datalen = 478))
      ∧ (∀ (sc : well_softc) (state : usb_state) (len : Int) (error : usb_error_t)
            (frame n : Nat),
          usb_call.usbd_xfer_set_frame_len frame n
              ∈ (well_trackpad_intr sc state len error).calls →
          frame = 0 ∧ n = sc.sc_params.trackpad_datalen)
      ∧ (∀ (sc : well_softc) (len : Int) (error : usb_error_t),
          sc.sc_errs < 5 → usb_fifo_put_bytes_max sc.sc_fifo ≠ 0 →
          (well_trackpad_intr sc usb_state.USB_ST_SETUP len error).calls
            = [usb_call.usbd_xfer_set_frame_len 0 sc.sc_params.trackpad_datalen,
               usb_call.usbd_transfer_submit]) := by
  refine ⟨by decide, by decide, by decide, by decide, ?_, intr_set_frame_len, ?_⟩
  · intro i p hp
    have hi : i < 9 := by
      have := (List.getElem?_eq_some.mp hp).1
      simpa [well_dev_params] using this
    interval_cases i <;> simp [well_dev_params] at hp <;> subst hp <;> decide
  · intro sc len error h5 hcap
    simp only [well_trackpad_intr]
    rw [tr_setup_calls, if_pos ⟨h5, hcap⟩]
    rfl

/-- Witness for C11: entry 1 (`DEV_WELLSPRING2`) is a 474-byte profile. -/
theorem C11_frame_sizes_witness :
    well_dev_params[1]? = some (well_dev_params[1])
      ∧ (well_dev_params[1]).button_datalen = 4
      ∧ (well_dev_params[1]).trackpad_datalen = 474 :=
  ⟨by decide,
    (C11_frame_sizes.2.2.2.2.1 1 (well_dev_params[1]) (by decide)).1,
    (C11_frame_sizes.2.2.2.2.1 1 (well_dev_params[1]) (by decide)).2.2.1 (by decide)⟩

/-- C12: in every profile of the table each of the four calibration axes (pressure,
width, x, y) has `min < max`, `res > 0` and `noise >= 0`. -/
theorem C12_calibration_well_formed (p : struct_well_dev_params) (c : well_calib)
    (hp : p ∈ well_dev_params)
    (hc : c ∈ [p.press_calib, p.width_calib, p.x_calib, p.y_calib]) :
    c.min < c.max ∧ 0 < c.res ∧ 0 ≤ c.noise := by
  have key : ∀ q ∈ well_dev_params,
      ∀ d ∈ [q.press_calib, q.width_calib, q.x_calib, q.y_calib],
        d.min < d.max ∧ 0 < d.res ∧ 0 ≤ d.noise := by decide
  exact key p hp c hc

/-- Witness for C12: the x axis of the first profile. -/
theorem C12_calibration_well_formed_witness :
    params_wellspring ∈ well_dev_params
      ∧ params_wellspring.x_calib ∈ [params_wellspring.press_calib,
          params_wellspring.width_calib, params_wellspring.x_calib,
          params_wellspring.y_calib]
      ∧ (params_wellspring.x_calib.min < params_wellspring.x_calib.max
          ∧ 0 < params_wellspring.x_calib.res ∧ 0 ≤ params_wellspring.x_calib.noise) :=
  ⟨by decide, by decide,
    C12_calibration_well_formed params_wellspring params_wellspring.x_calib
      (by decide) (by decide)⟩

/-- The request headers of the mode functions, byte by byte. -/
theorem USETW_values :
    USETW 0x300 = [0x00, 0x03] ∧ USETW 0 = [0x00, 0x00] ∧ USETW WELL_MODE_LENGTH = [0x08, 0x00]
      ∧ USETW2 0x03 0x00 = [0x00, 0x03] := by
  decide

/-- With a valid mode `well_set_device_mode` makes one request: a set-report whose
buffer is the mode buffer with byte 0 replaced; the result follows the transport. -/
theorem well_set_device_mode_valid {D : Type} (h : usb_host D) (udev : D) (sc : well_softc)
    (mode : Nat) (hm : mode = RAW_SENSOR_MODE ∨ mode = HID_MODE) :
    well_set_device_mode h udev sc mode =
      (if (h.usbd_do_request udev
            { bmRequestType := usb_bmRequestType.UT_WRITE_CLASS_INTERFACE,
              bRequest := usb_bRequest.UR_SET_REPORT,
              wValue := [0x00, 0x03], wIndex := [0x00, 0x00], wLength := [0x08, 0x00] }
            (sc.sc_mode_bytes.set 0 mode)).1 ≠ usb_error_t.USB_ERR_NORMAL_COMPLETION
        then ENXIO else 0,
       { sc with sc_mode_bytes := (h.usbd_do_request udev
            { bmRequestType := usb_bmRequestType.UT_WRITE_CLASS_INTERFACE,
              bRequest := usb_bRequest.UR_SET_REPORT,
              wValue := [0x00, 0x03], wIndex := [0x00, 0x00], wLength := [0x08, 0x00] }
            (sc.sc_mode_bytes.set 0 mode)).2.1 },
       (h.usbd_do_request udev
            { bmRequestType := usb_bmRequestType.UT_WRITE_CLASS_INTERFACE,
              bRequest := usb_bRequest.UR_SET_REPORT,
              wValue := [0x00, 0x03], wIndex := [0x00, 0x00], wLength := [0x08, 0x00] }
            (sc.sc_mode_bytes.set 0 mode)).2.2) := by
  have hv : ¬ (mode ≠ RAW_SENSOR_MODE ∧ mode ≠ HID_MODE) := by
    rcases hm with h1 | h1 <;> simp [h1]
  unfold well_set_device_mode
  rw [if_neg hv]
  simp only [USETW_values.1, USETW_values.2.1, USETW_values.2.2.1]
  split_ifs <;> rfl

/-- With an invalid mode `well_set_device_mode` returns at once. -/
theorem well_set_device_mode_invalid {D : Type} (h : usb_host D) (udev : D) (sc : well_softc)
    (mode : Nat) (h1 : mode ≠ RAW_SENSOR_MODE) (h2 : mode ≠ HID_MODE) :
    well_set_device_mode h udev sc mode = ( ENXIO, sc, udev) := by
  unfold well_set_device_mode
  rw [if_pos ⟨h1, h2⟩]

/-- C13: for every mode other than `RAW_SENSOR_MODE` (0x01) and `HID_MODE` (0x08),
`well_set_device_mode` returns `ENXIO` (which is not 0) without making any control
request (the record of requests and the device are as before, on every transport)
and leaves the softc, in particular `sc_mode_bytes`, unchanged. -/
theorem C13_set_mode_precondition {D : Type} (h : usb_host D) (udev : D)
    (log : List (usb_device_request × List Nat)) (sc : well_softc) (mode : Nat)
    (h1 : mode ≠ RAW_SENSOR_MODE) (h2 : mode ≠ HID_MODE) :
    well_set_device_mode (usb_host_log h) (udev, log) sc mode = ( ENXIO, sc, (udev, log))
      ∧ (well_set_device_mode (usb_host_log h) (udev, log) sc mode).2.1.sc_mode_bytes
          = sc.sc_mode_bytes
      ∧ well_set_device_mode h udev sc mode = ( ENXIO, sc, udev)
      ∧ ENXIO ≠ 0 ∧ RAW_SENSOR_MODE = 0x01 ∧ HID_MODE = 0x08 := by
  rw [well_set_device_mode_invalid _ _ _ _ h1 h2, well_set_device_mode_invalid _ _ _ _ h1 h2]
  exact ⟨rfl, rfl, rfl, by decide, rfl, rfl⟩

/-- Witness for C13: mode 0x02 on a transport that would succeed. -/
theorem C13_set_mode_precondition_witness :
    (2 : Nat) ≠ RAW_SENSOR_MODE ∧ (2 : Nat) ≠ HID_MODE
      ∧ well_set_device_mode (usb_host_log host_ok) ((), [])
          (softc_example params_wellspring 0 8) 2
        = ( ENXIO, softc_example params_wellspring 0 8, ((), [])) :=
  ⟨by decide, by decide,
    (C13_set_mode_precondition host_ok () [] (softc_example params_wellspring 0 8) 2
      (by decide) (by decide)).1⟩

/-- C14: for `mode` 0x01 or 0x08 and every prior 8-byte mode buffer,
`well_set_device_mode` makes exactly one control request, a set-report whose payload
is the buffer with byte 0 replaced by `mode` (8 bytes, the others unchanged), and
returns 0 if and only if the transport reports `USB_ERR_NORMAL_COMPLETION`,
otherwise `ENXIO`. -/
theorem C14_set_mode_payload {D : Type} (h : usb_host D) (udev : D)
    (log : List (usb_device_request × List Nat)) (sc : well_softc) (mode : Nat)
    (hm : mode = RAW_SENSOR_MODE ∨ mode = HID_MODE)
    (hlen : sc.sc_mode_bytes.length = WELL_MODE_LENGTH) :
    (well_set_device_mode (usb_host_log h) (udev, log) sc mode).2.2.2
        = log ++ [({ bmRequestType := usb_bmRequestType.UT_WRITE_CLASS_INTERFACE,
                     bRequest := usb_bRequest.UR_SET_REPORT,
                     wValue := [0x00, 0x03], wIndex := [0x00, 0x00],
                     wLength := [0x08, 0x00] },
                   sc.sc_mode_bytes.set 0 mode)]
      ∧ (sc.sc_mode_bytes.set 0 mode).length = 8
      ∧ (sc.sc_mode_bytes.set 0 mode)[0]? = some mode
      ∧ (∀ i : Nat, 1 ≤ i → (sc.sc_mode_bytes.set 0 mode)[i]? = sc.sc_mode_bytes[i]?)
      ∧ ((well_set_device_mode (usb_host_log h) (udev, log) sc mode).1 = 0
          ↔ (h.usbd_do_request udev
              { bmRequestType := usb_bmRequestType.UT_WRITE_CLASS_INTERFACE,
                bRequest := usb_bRequest.UR_SET_REPORT,
                wValue := [0x00, 0x03], wIndex := [0x00, 0x00], wLength := [0x08, 0x00] }
              (sc.sc_mode_bytes.set 0 mode)).1 = usb_error_t.USB_ERR_NORMAL_COMPLETION)
      ∧ ((well_set_device_mode (usb_host_log h) (udev, log) sc mode).1 = 0
          ∨ (well_set_device_mode (usb_host_log h) (udev, log) sc mode).1 = ENXIO)
      ∧ ENXIO ≠ 0 := by
  rw [well_set_device_mode_valid (usb_host_log h) (udev, log) sc mode hm]
  have hl : (sc.sc_mode_bytes.set 0 mode).length = 8 := by
    rw [List.length_set, hlen]
    rfl
  refine ⟨rfl, hl, ?_, ?_, ?_, ?_, by decide⟩
  · rw [List.getElem?_set_self (by rw [hlen]; decide)]
  · intro i hi
    rw [List.getElem?_set_ne (by omega)]
  · simp only [usb_host_log]
    split_ifs with hq
    · simp [hq, ENXIO]
    · simp only [ne_eq, not_not] at hq
      simp [hq]
  · simp only [usb_host_log]
    split_ifs <;> simp

/-- Witness for C14: switching to raw-sensor mode on a transport that succeeds. -/
theorem C14_set_mode_payload_witness :
    (RAW_SENSOR_MODE = RAW_SENSOR_MODE ∨ RAW_SENSOR_MODE = HID_MODE)
      ∧ (softc_example params_wellspring 0 8).sc_mode_bytes.length = WELL_MODE_LENGTH
      ∧ (well_set_device_mode (usb_host_log host_ok) ((), [])
          (softc_example params_wellspring 0 8) RAW_SENSOR_MODE).2.2.2
        = [({ bmRequestType := usb_bmRequestType.UT_WRITE_CLASS_INTERFACE,
              bRequest := usb_bRequest.UR_SET_REPORT,
              wValue := [0x00, 0x03], wIndex := [0x00, 0x00], wLength := [0x08, 0x00] },
            [1, 0, 0, 0, 0, 0, 0, 0])] :=
  ⟨Or.inl rfl, rfl,
    (C14_set_mode_payload host_ok () [] (softc_example params_wellspring 0 8)
      RAW_SENSOR_MODE (Or.inl rfl) rfl).1⟩

/-- The function `well_set_mode` in terms of the transport's answer to the query. -/
theorem well_set_mode_eq {D : Type} (h : usb_host D) (udev : D) (sc : well_softc)
    (mode : Nat) :
    well_set_mode h udev sc mode =
      (if (h.usbd_do_request udev
            { bmRequestType := usb_bmRequestType.UT_READ_CLASS_INTERFACE,
              bRequest := usb_bRequest.UR_GET_REPORT,
              wValue := [0x00, 0x03], wIndex := [0x00, 0x00], wLength := [0x08, 0x00] }
            [0, 0, 0, 0, 0, 0, 0, 0]).1 ≠ usb_error_t.USB_ERR_NORMAL_COMPLETION then
        ( ENXIO,
          { sc with sc_mode_bytes := (h.usbd_do_request udev
            { bmRequestType := usb_bmRequestType.UT_READ_CLASS_INTERFACE,
              bRequest := usb_bRequest.UR_GET_REPORT,
              wValue := [0x00, 0x03], wIndex := [0x00, 0x00], wLength := [0x08, 0x00] }
            [0, 0, 0, 0, 0, 0, 0, 0]).2.1 },
          (h.usbd_do_request udev
            { bmRequestType := usb_bmRequestType.UT_READ_CLASS_INTERFACE,
              bRequest := usb_bRequest.UR_GET_REPORT,
              wValue := [0x00, 0x03], wIndex := [0x00, 0x00], wLength := [0x08, 0x00] }
            [0, 0, 0, 0, 0, 0, 0, 0]).2.2)
      else
        (if (well_set_device_mode h (h.usbd_do_request udev
            { bmRequestType := usb_bmRequestType.UT_READ_CLASS_INTERFACE,
              bRequest := usb_bRequest.UR_GET_REPORT,
              wValue := [0x00, 0x03], wIndex := [0x00, 0x00], wLength := [0x08, 0x00] }
            [0, 0, 0, 0, 0, 0, 0, 0]).2.2
            { sc with sc_mode_bytes := (h.usbd_do_request udev
              { bmRequestType := usb_bmRequestType.UT_READ_CLASS_INTERFACE,
                bRequest := usb_bRequest.UR_GET_REPORT,
                wValue := [0x00, 0x03], wIndex := [0x00, 0x00], wLength := [0x08, 0x00] }
              [0, 0, 0, 0, 0, 0, 0, 0]).2.1 } mode).1 ≠ 0 then ENXIO else 0,
         (well_set_device_mode h (h.usbd_do_request udev
            { bmRequestType := usb_bmRequestType.UT_READ_CLASS_INTERFACE,
              bRequest := usb_bRequest.UR_GET_REPORT,
              wValue := [0x00, 0x03], wIndex := [0x00, 0x00], wLength := [0x08, 0x00] }
            [0, 0, 0, 0, 0, 0, 0, 0]).2.2
            { sc with sc_mode_bytes := (h.usbd_do_request udev
              { bmRequestType := usb_bmRequestType.UT_READ_CLASS_INTERFACE,
                bRequest := usb_bRequest.UR_GET_REPORT,
                wValue := [0x00, 0x03], wIndex := [0x00, 0x00], wLength := [0x08, 0x00] }
              [0, 0, 0, 0, 0, 0, 0, 0]).2.1 } mode).2)) := by
  unfold well_set_mode well_req_get_report
  simp only [USETW_values.1, USETW_values.2.1, USETW_values.2.2.1]
  have hz : List.replicate WELL_MODE_LENGTH 0 = [0, 0, 0, 0, 0, 0, 0, 0] := by decide
  rw [hz]
  split_ifs <;> rfl

/-- C15: `well_set_mode` zero-fills the 8-byte mode buffer and makes one get-report
request into it.  If the query does not complete normally it returns `ENXIO` and
has made no other request; otherwise it calls `well_set_device_mode` on the queried
buffer.  It returns 0 if and only if the query and the set both succeed, and
`ENXIO` otherwise.  In all, the requests made are the query and, when the query
succeeded and the mode is valid, one set-report: nothing is retried. -/
theorem C15_mode_switch_sequence {D : Type} (h : usb_host D) (udev : D)
    (log : List (usb_device_request × List Nat)) (sc : well_softc) (mode : Nat) :
    let get_req : usb_device_request :=
      { bmRequestType := usb_bmRequestType.UT_READ_CLASS_INTERFACE,
        bRequest := usb_bRequest.UR_GET_REPORT,
        wValue := [0x00, 0x03], wIndex := [0x00, 0x00], wLength := [0x08, 0x00] }
    let set_req : usb_device_request :=
      { bmRequestType := usb_bmRequestType.UT_WRITE_CLASS_INTERFACE,
        bRequest := usb_bRequest.UR_SET_REPORT,
        wValue := [0x00, 0x03], wIndex := [0x00, 0x00], wLength := [0x08, 0x00] }
    let zero : List Nat := [0, 0, 0, 0, 0, 0, 0, 0]
    let q := h.usbd_do_request udev get_req zero
    let log1 := log ++ [(get_req, zero)]
    let r := well_set_mode (usb_host_log h) (udev, log) sc mode
    let s := well_set_device_mode (usb_host_log h) (q.2.2, log1)
      { sc with sc_mode_bytes := q.2.1 } mode
    List.replicate WELL_MODE_LENGTH 0 = zero
      ∧ (q.1 ≠ usb_error_t.USB_ERR_NORMAL_COMPLETION →
          r = ( ENXIO, { sc with sc_mode_bytes := q.2.1 }, (q.2.2, log1)))
      ∧ (q.1 = usb_error_t.USB_ERR_NORMAL_COMPLETION →
          r = (if s.1 ≠ 0 then ENXIO else 0, s.2.1, s.2.2))
      ∧ (r.1 = 0 ↔ (q.1 = usb_error_t.USB_ERR_NORMAL_COMPLETION ∧ s.1 = 0))
      ∧ (r.1 = 0 ∨ r.1 = ENXIO)
      ∧ r.2.2.2 = log1 ++
          (if q.1 = usb_error_t.USB_ERR_NORMAL_COMPLETION
              ∧ (mode = RAW_SENSOR_MODE ∨ mode = HID_MODE) then
            [(set_req, q.2.1.set 0 mode)] else []) := by
  intro get_req set_req zero q log1 r s
  have hr : r = (if q.1 ≠ usb_error_t.USB_ERR_NORMAL_COMPLETION then
        ( ENXIO, { sc with sc_mode_bytes := q.2.1 }, (q.2.2, log1))
      else (if s.1 ≠ 0 then ENXIO else 0, s.2.1, s.2.2)) :=
    well_set_mode_eq (usb_host_log h) (udev, log) sc mode
  have hE : ENXIO ≠ 0 := by decide
  refine ⟨by decide, ?_, ?_, ?_, ?_, ?_⟩
  · intro hq
    rw [hr, if_pos hq]
  · intro hq
    rw [hr, if_neg (not_not.mpr hq)]
  · rw [hr]
    by_cases hq : q.1 = usb_error_t.USB_ERR_NORMAL_COMPLETION
    · rw [if_neg (not_not.mpr hq)]
      by_cases hs : s.1 = 0 <;> simp [hq, hs, hE]
    · rw [if_pos hq]
      simp [hq, hE]
  · rw [hr]
    split_ifs <;> simp
  · rw [hr]
    by_cases hq : q.1 = usb_error_t.USB_ERR_NORMAL_COMPLETION
    · rw [if_neg (not_not.mpr hq)]
      by_cases hm : mode = RAW_SENSOR_MODE ∨ mode = HID_MODE
      · have hc : q.1 = usb_error_t.USB_ERR_NORMAL_COMPLETION
            ∧ (mode = RAW_SENSOR_MODE ∨ mode = HID_MODE) := ⟨hq, hm⟩
        rw [if_pos hc]
        have hs : s = _ := well_set_device_mode_valid (usb_host_log h) (q.2.2, log1)
          { sc with sc_mode_bytes := q.2.1 } mode hm
        rw [hs]
        rfl
      · have hc : ¬ (q.1 = usb_error_t.USB_ERR_NORMAL_COMPLETION
            ∧ (mode = RAW_SENSOR_MODE ∨ mode = HID_MODE)) := fun hc => hm hc.2
        rw [if_neg hc]
        have hs : s = _ := well_set_device_mode_invalid (usb_host_log h) (q.2.2, log1)
          { sc with sc_mode_bytes := q.2.1 } mode (fun hc => hm (Or.inl hc))
          (fun hc => hm (Or.inr hc))
        rw [hs]
        simp
    · have hc : ¬ (q.1 = usb_error_t.USB_ERR_NORMAL_COMPLETION
          ∧ (mode = RAW_SENSOR_MODE ∨ mode = HID_MODE)) := fun hc => hq hc.1
      rw [if_pos hq, if_neg hc]
      simp

/-- C16: `well_req_get_report` sends the header (read/class/interface, GET_REPORT,
wValue 0x0300, wIndex 0, wLength 8) and `well_set_device_mode` sends
(write/class/interface, SET_REPORT, wValue 0x0300, wIndex 0, wLength 8); the 16-bit
fields are little-endian byte pairs (wValue 0x00, 0x03; wLength 0x08, 0x00), and
`USETW` is the little-endian encoding of every 16-bit value. -/
theorem C16_wire_contract {D : Type} (h : usb_host D) (udev : D)
    (log : List (usb_device_request × List Nat)) (data : List Nat) (sc : well_softc)
    (mode : Nat) (hm : mode = RAW_SENSOR_MODE ∨ mode = HID_MODE) :
    (well_req_get_report (usb_host_log h) (udev, log) data).2.2.2
        = log ++ [({ bmRequestType := usb_bmRequestType.UT_READ_CLASS_INTERFACE,
                     bRequest := usb_bRequest.UR_GET_REPORT,
                     wValue := [0x00, 0x03], wIndex := [0x00, 0x00],
                     wLength := [0x08, 0x00] }, data)]
      ∧ (well_set_device_mode (usb_host_log h) (udev, log) sc mode).2.2.2
        = log ++ [({ bmRequestType := usb_bmRequestType.UT_WRITE_CLASS_INTERFACE,
                     bRequest := usb_bRequest.UR_SET_REPORT,
                     wValue := [0x00, 0x03], wIndex := [0x00, 0x00],
                     wLength := [0x08, 0x00] }, sc.sc_mode_bytes.set 0 mode)]
      ∧ USETW 0x0300 = [0x00, 0x03] ∧ USETW 0 = [0x00, 0x00] ∧ USETW 8 = [0x08, 0x00]
      ∧ WELL_MODE_LENGTH = 8
      ∧ (∀ v : Nat, v < 2 ^ 16 →
          ∃ lo hi : Nat, USETW v = [lo, hi] ∧ lo < 256 ∧ hi < 256 ∧ lo + 256 * hi = v) := by
  refine ⟨?_, ?_, by decide, by decide, by decide, rfl, ?_⟩
  · unfold well_req_get_report
    simp only [USETW_values.1, USETW_values.2.1, USETW_values.2.2.1]
    rfl
  · rw [well_set_device_mode_valid (usb_host_log h) (udev, log) sc mode hm]
    rfl
  · intro v hv
    refine ⟨v % 256, v / 256 % 256, rfl, ?_, ?_, ?_⟩ <;> omega

/-- Witness for C16: the set-report of a switch to HID mode. -/
theorem C16_wire_contract_witness :
    (HID_MODE = RAW_SENSOR_MODE ∨ HID_MODE = HID_MODE)
      ∧ (well_set_device_mode (usb_host_log host_ok) ((), [])
          (softc_example params_wellspring 0 8) HID_MODE).2.2.2
        = [({ bmRequestType := usb_bmRequestType.UT_WRITE_CLASS_INTERFACE,
              bRequest := usb_bRequest.UR_SET_REPORT,
              wValue := [0x00, 0x03], wIndex := [0x00, 0x00], wLength := [0x08, 0x00] },
            [8, 0, 0, 0, 0, 0, 0, 0])] :=
  ⟨Or.inr rfl,
    (C16_wire_contract host_ok () [] [] (softc_example params_wellspring 0 8) HID_MODE
      (Or.inr rfl)).2.1⟩

/-- Witness for C15: on a transport where every request fails, `well_set_mode`
returns `ENXIO` after the query alone. -/
theorem C15_mode_switch_sequence_witness :
    (host_fail.usbd_do_request ()
        { bmRequestType := usb_bmRequestType.UT_READ_CLASS_INTERFACE,
          bRequest := usb_bRequest.UR_GET_REPORT,
          wValue := [0x00, 0x03], wIndex := [0x00, 0x00], wLength := [0x08, 0x00] }
        [0, 0, 0, 0, 0, 0, 0, 0]).1 ≠ usb_error_t.USB_ERR_NORMAL_COMPLETION
      ∧ well_set_mode (usb_host_log host_fail) ((), [])
          (softc_example params_wellspring 0 8) RAW_SENSOR_MODE
        = ( ENXIO, softc_example params_wellspring 0 8,
            ((), [({ bmRequestType := usb_bmRequestType.UT_READ_CLASS_INTERFACE,
                     bRequest := usb_bRequest.UR_GET_REPORT,
                     wValue := [0x00, 0x03], wIndex := [0x00, 0x00],
                     wLength := [0x08, 0x00] }, [0, 0, 0, 0, 0, 0, 0, 0])])) :=
  ⟨by decide,
    (C15_mode_switch_sequence host_fail () [] (softc_example params_wellspring 0 8)
      RAW_SENSOR_MODE).2.1 (by decide)⟩

/-- C17: in the setup state `well_reset_callback` sets byte 0 of the mode buffer to
0x01 and submits one transfer of exactly 2 frames: frame 0 receives a set-report
header of `sizeof(request) = 8` bytes, frame 1 the 8-byte mode buffer, the frame
lengths are 8 and 8.  The header is the one `well_set_device_mode` sends
(`USETW2(0x03, 0x00)` and `USETW(0x300)` are the same bytes, index 0, length 8) and
the payload is the one `well_set_device_mode` sends for `RAW_SENSOR_MODE`.  In every
other state the callback makes no call and changes no state. -/
theorem C17_compound_reset :
    (∀ sc : well_softc,
        well_reset_callback sc usb_state.USB_ST_SETUP =
          { sc := { sc with sc_mode_bytes := sc.sc_mode_bytes.set 0 0x01 },
            calls :=
              [usb_call.usbd_copy_in_req 0 0
                 { bmRequestType := usb_bmRequestType.UT_WRITE_CLASS_INTERFACE,
                   bRequest := usb_bRequest.UR_SET_REPORT,
                   wValue := [0x00, 0x03], wIndex := [0x00, 0x00], wLength := [0x08, 0x00] } 8,
               usb_call.usbd_copy_in 1 0 (sc.sc_mode_bytes.set 0 0x01) 8,
               usb_call.usbd_xfer_set_frame_len 0 8,
               usb_call.usbd_xfer_set_frame_len 1 8,
               usb_call.usbd_xfer_set_frames 2,
               usb_call.usbd_transfer_submit] })
      ∧ (∀ sc : well_softc, sc.sc_mode_bytes.length = WELL_MODE_LENGTH →
          (sc.sc_mode_bytes.set 0 0x01).length = 8)
      ∧ USETW2 0x03 0x00 = USETW 0x300
      ∧ sizeof_usb_device_request = 8
      ∧ (∀ (D : Type) (h : usb_host D) (udev : D)
            (log : List (usb_device_request × List Nat)) (sc : well_softc),
          (well_set_device_mode (usb_host_log h) (udev, log) sc RAW_SENSOR_MODE).2.2.2
            = log ++ [({ bmRequestType := usb_bmRequestType.UT_WRITE_CLASS_INTERFACE,
                         bRequest := usb_bRequest.UR_SET_REPORT,
                         wValue := [0x00, 0x03], wIndex := [0x00, 0x00],
                         wLength := [0x08, 0x00] }, sc.sc_mode_bytes.set 0 0x01)])
      ∧ (∀ (sc : well_softc) (state : usb_state), state ≠ usb_state.USB_ST_SETUP →
          well_reset_callback sc state = { sc := sc, calls := [] }) := by
  refine ⟨?_, ?_, by decide, by decide, ?_, ?_⟩
  · intro sc
    simp only [well_reset_callback, USETW_values.2.1, USETW_values.2.2.1,
      USETW_values.2.2.2]
    rfl
  · intro sc hlen
    rw [List.length_set, hlen]
    rfl
  · intro D h udev log sc
    rw [well_set_device_mode_valid (usb_host_log h) (udev, log) sc RAW_SENSOR_MODE
      (Or.inl rfl)]
    rfl
  · intro sc state hs
    cases state with
    | USB_ST_SETUP => exact absurd rfl hs
    | USB_ST_TRANSFERRED => rfl
    | USB_ST_ERROR => rfl

/-- Witness for C17: a completion of the reset transfer changes nothing. -/
theorem C17_compound_reset_witness :
    usb_state.USB_ST_TRANSFERRED ≠ usb_state.USB_ST_SETUP
      ∧ well_reset_callback (softc_example params_wellspring 0 8) usb_state.USB_ST_TRANSFERRED
        = { sc := softc_example params_wellspring 0 8, calls := [] } :=
  ⟨by decide,
    C17_compound_reset.2.2.2.2.2 (softc_example params_wellspring 0 8)
      usb_state.USB_ST_TRANSFERRED (by decide)⟩

/-- C20 (as stated) fails: on a transport where every control request fails the
mode switch of `well_start_read` fails (`well_set_mode` returns non-zero), and
`well_start_read` calls `usbd_transfer_start` all the same. -/
theorem C20_failed_switch_still_starts :
    (well_set_mode host_fail () (softc_example params_wellspring 0 8) RAW_SENSOR_MODE).1 ≠ 0
      ∧ usb_call.usbd_transfer_start
          ∈ (well_start_read host_fail () (softc_example params_wellspring 0 8)).calls := by
  decide

/-- C20 (amended): `well_start_read` discards the result of `well_set_mode`: for
every softc, transport and device, whether or not the raw-sensor switch succeeds,
its last call is `usbd_transfer_start` on the trackpad transfer. -/
theorem C20_start_ignores_mode_switch {D : Type} (h : usb_host D) (udev : D)
    (sc : well_softc) :
    usb_call.usbd_transfer_start ∈ (well_start_read h udev sc).calls
      ∧ (well_start_read h udev sc).calls.getLast? = some usb_call.usbd_transfer_start := by
  simp only [well_start_read]
  split_ifs <;> simp

/-- The mask of `well_disable` is `0xFFFFFFFE`. -/
theorem well_disable_mask : u32 (-(WELL_ENABLED : Int) - 1) = 4294967294 := by
  decide

/-- The state word after `well_disable`: bit 0 is clear, the other bits are kept. -/
theorem well_disable_bits (sc : well_softc) :
    (well_disable sc).sc_state &&& WELL_ENABLED = 0
      ∧ (well_disable sc).sc_state.testBit 0 = false
      ∧ (∀ i : Nat, 0 < i → i < 32 →
          (well_disable sc).sc_state.testBit i = sc.sc_state.testBit i) := by
  simp only [well_disable, well_disable_mask]
  refine ⟨?_, ?_, ?_⟩
  · rw [Nat.and_assoc]
    simp [WELL_ENABLED]
  · rw [Nat.testBit_and]
    simp
  · intro i h0 h32
    rw [Nat.testBit_and]
    have hb : (4294967294 : Nat).testBit i = true := by
      interval_cases i <;> decide
    rw [hb, Bool.and_true]

/-- C18: on a device that stores the payload of the last successful set-report and
returns it on get-report, a successful `well_set_device_mode` with mode 0x01 (or
0x08) followed by a `well_req_get_report` that completes yields the buffer that was
sent, whose first byte is 0x01 (respectively 0x08). -/
theorem C18_mode_round_trip (d : mode_device) (sc : well_softc) (mode : Nat)
    (buf : List Nat) (hm : mode = RAW_SENSOR_MODE ∨ mode = HID_MODE)
    (hlen : sc.sc_mode_bytes.length = WELL_MODE_LENGTH)
    (hset : (well_set_device_mode mode_host d sc mode).1 = 0)
    (hget : (well_req_get_report mode_host (well_set_device_mode mode_host d sc mode).2.2
      buf).1 = usb_error_t.USB_ERR_NORMAL_COMPLETION) :
    (well_req_get_report mode_host (well_set_device_mode mode_host d sc mode).2.2 buf).2.1
        = sc.sc_mode_bytes.set 0 mode
      ∧ (well_req_get_report mode_host (well_set_device_mode mode_host d sc mode).2.2
          buf).2.1.head? = some mode
      ∧ RAW_SENSOR_MODE = 0x01 ∧ HID_MODE = 0x08 := by
  have hhead : (sc.sc_mode_bytes.set 0 mode).head? = some mode := by
    cases hb : sc.sc_mode_bytes with
    | nil => rw [hb] at hlen; exact absurd hlen (by decide)
    | cons a t => rfl
  rw [well_set_device_mode_valid mode_host d sc mode hm] at hset hget ⊢
  refine ⟨?_, ?_, rfl, rfl⟩ <;>
    rcases d with ⟨stored, script⟩ <;>
    rcases script with _ | ⟨e1, _ | ⟨e2, rest⟩⟩ <;>
    (try cases e1) <;> (try cases e2) <;>
    simp [well_req_get_report, mode_host, ENXIO, hhead] at hset hget ⊢

/-- Witness for C18: setting raw-sensor mode on a device that held HID mode. -/
theorem C18_mode_round_trip_witness :
    (RAW_SENSOR_MODE = RAW_SENSOR_MODE ∨ RAW_SENSOR_MODE = HID_MODE)
      ∧ (softc_example params_wellspring 0 8).sc_mode_bytes.length = WELL_MODE_LENGTH
      ∧ (well_set_device_mode mode_host { stored := [8, 0, 0, 0, 0, 0, 0, 0], script := [] }
          (softc_example params_wellspring 0 8) RAW_SENSOR_MODE).1 = 0
      ∧ (well_req_get_report mode_host
          (well_set_device_mode mode_host { stored := [8, 0, 0, 0, 0, 0, 0, 0], script := [] }
            (softc_example params_wellspring 0 8) RAW_SENSOR_MODE).2.2
          [0, 0, 0, 0, 0, 0, 0, 0]).2.1.head? = some 0x01 :=
  ⟨Or.inl rfl, rfl, by decide,
    (C18_mode_round_trip { stored := [8, 0, 0, 0, 0, 0, 0, 0], script := [] }
      (softc_example params_wellspring 0 8) RAW_SENSOR_MODE [0, 0, 0, 0, 0, 0, 0, 0]
      (Or.inl rfl) rfl (by decide) (by decide)).2.1⟩

/-- C19: with `FREAD` in the flags, `well_open` on a softc whose `WELL_ENABLED` bit
is set returns `EBUSY`, makes no call (no buffer is allocated) and leaves the softc
unchanged; `well_close` frees the FIFO buffer and clears `WELL_ENABLED`, every
other bit of `sc_state` and every other field being kept; a `well_open` that
follows and whose buffer allocation succeeds returns 0 with `WELL_ENABLED` set. -/
theorem C19_open_close_contract :
    (∀ (sc : well_softc) (fflags : Nat) (alloc_err : Int),
        fflags &&& FREAD ≠ 0 → sc.sc_state &&& WELL_ENABLED ≠ 0 →
        well_open sc fflags alloc_err = { ret := EBUSY, sc := sc, calls := [] })
      ∧ EBUSY ≠ 0
      ∧ (∀ (sc : well_softc) (fflags : Nat), fflags &&& FREAD ≠ 0 →
          (well_close sc fflags).calls = [usb_call.usb_fifo_free_buffer]
            ∧ (well_close sc fflags).sc
                = { sc with sc_state := (well_close sc fflags).sc.sc_state }
            ∧ (well_close sc fflags).sc.sc_state &&& WELL_ENABLED = 0
            ∧ (well_close sc fflags).sc.sc_state.testBit 0 = false
            ∧ (∀ i : Nat, 0 < i → i < 32 →
                (well_close sc fflags).sc.sc_state.testBit i = sc.sc_state.testBit i))
      ∧ (∀ (sc : well_softc) (fflags fflags2 : Nat),
          fflags &&& FREAD ≠ 0 → fflags2 &&& FREAD ≠ 0 →
          (well_open (well_close sc fflags).sc fflags2 0).ret = 0
            ∧ (well_open (well_close sc fflags).sc fflags2 0).calls
                = [usb_call.usb_fifo_alloc_buffer 8 50]
            ∧ (well_open (well_close sc fflags).sc fflags2 0).sc.sc_state &&& WELL_ENABLED
                = WELL_ENABLED
            ∧ WELL_ENABLED ≠ 0) := by
  refine ⟨?_, by decide, ?_, ?_⟩
  · intro sc fflags alloc_err hf he
    unfold well_open
    rw [if_pos hf, if_pos he]
  · intro sc fflags hf
    have hb := well_disable_bits sc
    unfold well_close
    rw [if_pos hf]
    exact ⟨rfl, rfl, hb.1, hb.2.1, hb.2.2⟩
  · intro sc fflags fflags2 hf hf2
    have hb := well_disable_bits sc
    have hc : (well_close sc fflags).sc = well_disable sc := by
      unfold well_close
      rw [if_pos hf]
    rw [hc]
    unfold well_open
    rw [if_pos hf2, if_neg (not_not.mpr hb.1), if_neg (not_not.mpr rfl)]
    refine ⟨rfl, rfl, ?_, by decide⟩
    simp [well_enable, WELL_ENABLED]

/-- Witness for C19: opening an enabled channel for reading is refused. -/
theorem C19_open_close_contract_witness :
    FREAD &&& FREAD ≠ 0
      ∧ ({ softc_example params_wellspring 0 8 with sc_state := 1 } : well_softc).sc_state
          &&& WELL_ENABLED ≠ 0
      ∧ well_open { softc_example params_wellspring 0 8 with sc_state := 1 } FREAD 0
        = { ret := EBUSY, sc := { softc_example params_wellspring 0 8 with sc_state := 1 },
            calls := [] } :=
  ⟨by decide, by decide,
    C19_open_close_contract.1 { softc_example params_wellspring 0 8 with sc_state := 1 }
      FREAD 0 (by decide) (by decide)⟩

/-- C21: the table `well_devs` has 27 entries, all of the same vendor; every entry
carries a variant index below `DEV_WELLSPRING_N` = 9, so `well_dev_params` has an
entry at that index; the 27 product IDs are pairwise distinct; and every one of the
9 variants is the index of some entry. -/
theorem C21_profile_lookup_total :
    well_devs.length = 27
      ∧ DEV_WELLSPRING_N = 9
      ∧ (∀ d ∈ well_devs, d.idVendor = USB_VENDOR_APPLE)
      ∧ (∀ d ∈ well_devs, d.driver_info < DEV_WELLSPRING_N)
      ∧ (∀ d ∈ well_devs, (well_dev_params[d.driver_info]?).isSome = true)
      ∧ (well_devs.map (fun d => d.idProduct)).Nodup
      ∧ (∀ v : Nat, v < DEV_WELLSPRING_N → ∃ d ∈ well_devs, d.driver_info = v) := by
  refine ⟨by decide, by decide, by decide, by decide, by decide, by decide, ?_⟩
  intro v hv
  have hv9 : v < 9 := hv
  interval_cases v
  · exact ⟨USB_VPI USB_VENDOR_APPLE 0x0223 DEV_WELLSPRING, by decide, rfl⟩
  · exact ⟨USB_VPI USB_VENDOR_APPLE 0x0230 DEV_WELLSPRING2, by decide, rfl⟩
  · exact ⟨USB_VPI USB_VENDOR_APPLE 0x0236 DEV_WELLSPRING3, by decide, rfl⟩
  · exact ⟨USB_VPI USB_VENDOR_APPLE 0x023f DEV_WELLSPRING4, by decide, rfl⟩
  · exact ⟨USB_VPI USB_VENDOR_APPLE 0x0242 DEV_WELLSPRING4a, by decide, rfl⟩
  · exact ⟨USB_VPI USB_VENDOR_APPLE 0x0245 DEV_WELLSPRING5, by decide, rfl⟩
  · exact ⟨USB_VPI USB_VENDOR_APPLE 0x0252 DEV_WELLSPRING5a, by decide, rfl⟩
  · exact ⟨USB_VPI USB_VENDOR_APPLE 0x0249 DEV_WELLSPRING6, by decide, rfl⟩
  · exact ⟨USB_VPI USB_VENDOR_APPLE 0x024c DEV_WELLSPRING6a, by decide, rfl⟩

/-- Witness for C21: the entry of product 0x0252 selects profile 6
(`DEV_WELLSPRING5a`), which exists. -/
theorem C21_profile_lookup_total_witness :
    USB_VPI USB_VENDOR_APPLE 0x0252 DEV_WELLSPRING5a ∈ well_devs
      ∧ (USB_VPI USB_VENDOR_APPLE 0x0252 DEV_WELLSPRING5a).driver_info < DEV_WELLSPRING_N
      ∧ (well_dev_params[(USB_VPI USB_VENDOR_APPLE 0x0252
          DEV_WELLSPRING5a).driver_info]?).isSome = true :=
  ⟨by decide,
    C21_profile_lookup_total.2.2.2.1 (USB_VPI USB_VENDOR_APPLE 0x0252 DEV_WELLSPRING5a)
      (by decide),
    C21_profile_lookup_total.2.2.2.2.1 (USB_VPI USB_VENDOR_APPLE 0x0252 DEV_WELLSPRING5a)
      (by decide)⟩

/-- The setup step of the button callback. -/
theorem button_tr_setup_eq (sc : well_softc) (calls : List usb_call) (reads : List Nat) :
    button_tr_setup sc calls reads =
      { sc := sc,
        calls := calls ++ (if usb_fifo_put_bytes_max sc.sc_fifo ≠ 0 then
          [usb_call.usbd_xfer_set_frame_len 0 sc.sc_params.button_datalen,
           usb_call.usbd_transfer_submit] else []),
        data_reads := reads } := by
  unfold button_tr_setup
  split_ifs <;> simp

/-- The calls of `well_button_intr`: at most one call before the setup step, then
the setup step, except after a cancellation. -/
theorem well_button_intr_calls (sc : well_softc) (state : usb_state) (len : Int)
    (error : usb_error_t)
    (hc : ¬ (state = usb_state.USB_ST_ERROR ∧ error = usb_error_t.USB_ERR_CANCELLED)) :
    ∃ pre : List usb_call,
      (pre = [] ∨ pre = [usb_call.usbd_copy_out 0 0 sc.sc_params.button_datalen]
        ∨ pre = [usb_call.usbd_xfer_set_stall])
      ∧ (well_button_intr sc state len error).calls
        = pre ++ (if usb_fifo_put_bytes_max sc.sc_fifo ≠ 0 then
            [usb_call.usbd_xfer_set_frame_len 0 sc.sc_params.button_datalen,
             usb_call.usbd_transfer_submit] else []) := by
  cases state with
  | USB_ST_SETUP =>
    exact ⟨[], Or.inl rfl, by simp only [well_button_intr, button_tr_setup_eq]⟩
  | USB_ST_TRANSFERRED =>
    simp only [well_button_intr]
    by_cases h1 : u32 (if u32 len > sc.sc_params.button_datalen
        then toInt32 sc.sc_params.button_datalen else len) < sc.sc_params.button_datalen
    · rw [if_pos h1]
      exact ⟨[], Or.inl rfl, by simp only [button_tr_setup_eq]⟩
    · rw [if_neg h1]
      exact ⟨[usb_call.usbd_copy_out 0 0 sc.sc_params.button_datalen], Or.inr (Or.inl rfl),
        by simp only [button_tr_setup_eq]⟩
  | USB_ST_ERROR =>
    have hne : error ≠ usb_error_t.USB_ERR_CANCELLED := fun h => hc ⟨rfl, h⟩
    simp only [well_button_intr, if_pos hne]
    exact ⟨[usb_call.usbd_xfer_set_stall], Or.inr (Or.inr rfl),
      by simp only [button_tr_setup_eq]⟩

/-- The button callback leaves the softc as it is. -/
theorem well_button_intr_sc (sc : well_softc) (state : usb_state) (len : Int)
    (error : usb_error_t) : (well_button_intr sc state len error).sc = sc := by
  cases state <;> simp only [well_button_intr, button_tr_setup_eq] <;> split_ifs <;> rfl

/-- Every profile of the table has 4-byte button frames. -/
theorem well_dev_params_button_datalen (p : struct_well_dev_params)
    (hp : p ∈ well_dev_params) : p.button_datalen = 4 := by
  have key : ∀ q ∈ well_dev_params, q.button_datalen = 4 := by decide
  exact key p hp

/-- C22: `well_button_intr` never modifies the softc, so never the error counter.
Whenever it reaches its setup step (from SETUP, from a full, oversize or short
frame, from an error other than `USB_ERR_CANCELLED`) it submits if and only if the
sink has capacity, whatever the error counter is, and then with frame 0 set to the
profile's `button_datalen`, which is 4 for every profile of the table.  On
`USB_ERR_CANCELLED` it makes no call. -/
theorem C22_button_no_cutoff (sc : well_softc) (state : usb_state) (len : Int)
    (error : usb_error_t) :
    (well_button_intr sc state len error).sc = sc
      ∧ (well_button_intr sc state len error).sc.sc_errs = sc.sc_errs
      ∧ (¬ (state = usb_state.USB_ST_ERROR ∧ error = usb_error_t.USB_ERR_CANCELLED) →
          (submits (well_button_intr sc state len error).calls = true
              ↔ usb_fifo_put_bytes_max sc.sc_fifo ≠ 0)
            ∧ (∀ frame n : Nat, usb_call.usbd_xfer_set_frame_len frame n
                  ∈ (well_button_intr sc state len error).calls →
                frame = 0 ∧ n = sc.sc_params.button_datalen)
            ∧ (usb_fifo_put_bytes_max sc.sc_fifo ≠ 0 →
                ∃ pre : List usb_call, (well_button_intr sc state len error).calls
                  = pre ++ [usb_call.usbd_xfer_set_frame_len 0 sc.sc_params.button_datalen,
                            usb_call.usbd_transfer_submit]))
      ∧ (state = usb_state.USB_ST_ERROR → error = usb_error_t.USB_ERR_CANCELLED →
          (well_button_intr sc state len error).calls = [])
      ∧ (sc.sc_params ∈ well_dev_params →
          sc.sc_params.button_datalen = WELL_BUTTON_DATALEN ∧ WELL_BUTTON_DATALEN = 4) := by
  refine ⟨well_button_intr_sc sc state len error, ?_, ?_, ?_, ?_⟩
  · rw [well_button_intr_sc]
  · intro hc
    obtain ⟨pre, hpre, hcalls⟩ := well_button_intr_calls sc state len error hc
    rw [hcalls]
    refine ⟨?_, ?_, ?_⟩
    · by_cases hcap : usb_fifo_put_bytes_max sc.sc_fifo = 0 <;>
        rcases hpre with h | h | h <;> subst h <;> simp [submits, hcap]
    · intro frame n hmem
      by_cases hcap : usb_fifo_put_bytes_max sc.sc_fifo = 0 <;>
        rcases hpre with h | h | h <;> subst h <;> simp [hcap] at hmem <;> exact hmem
    · intro hcap
      exact ⟨pre, by rw [if_pos hcap]⟩
  · intro hs he
    subst hs he
    simp [well_button_intr]
  · intro hp
    exact ⟨well_dev_params_button_datalen _ hp, rfl⟩

/-- Witness for C22: a stall on the button channel with the counter at 5 still
resubmits a 4-byte transfer. -/
theorem C22_button_no_cutoff_witness :
    ¬ (usb_state.USB_ST_ERROR = usb_state.USB_ST_ERROR
        ∧ usb_error_t.USB_ERR_OTHER 3 = usb_error_t.USB_ERR_CANCELLED)
      ∧ (softc_example params_wellspring 5 8).sc_errs = 5
      ∧ (well_button_intr (softc_example params_wellspring 5 8) usb_state.USB_ST_ERROR 0
          (usb_error_t.USB_ERR_OTHER 3)).calls
        = [usb_call.usbd_xfer_set_stall, usb_call.usbd_xfer_set_frame_len 0 4,
           usb_call.usbd_transfer_submit]
      ∧ (submits (well_button_intr (softc_example params_wellspring 5 8)
            usb_state.USB_ST_ERROR 0 (usb_error_t.USB_ERR_OTHER 3)).calls = true
          ↔ usb_fifo_put_bytes_max (softc_example params_wellspring 5 8).sc_fifo ≠ 0) :=
  ⟨by decide, rfl, by decide,
    ((C22_button_no_cutoff (softc_example params_wellspring 5 8) usb_state.USB_ST_ERROR 0
      (usb_error_t.USB_ERR_OTHER 3)).2.2.1 (by decide)).1⟩

/-- C23 fails on the 474-byte profiles: for a full-length frame on
`well_dev_params[DEV_WELLSPRING]` the callback copies 474 bytes into the local
buffer and the dump loop then reads all 478 indices, among them 474, 475, 476 and
477, which are not below `trackpad_datalen` and were not written by the copy. -/
theorem C23_dump_reads_uncopied_bytes :
    (softc_example params_wellspring 0 8).sc_params.trackpad_datalen = 474
      ∧ copy_outs (well_trackpad_intr (softc_example params_wellspring 0 8)
          usb_state.USB_ST_TRANSFERRED 474 usb_error_t.USB_ERR_NORMAL_COMPLETION).calls = [474]
      ∧ (well_trackpad_intr (softc_example params_wellspring 0 8)
          usb_state.USB_ST_TRANSFERRED 474 usb_error_t.USB_ERR_NORMAL_COMPLETION).data_reads
          = List.range 478
      ∧ 474 ∈ (well_trackpad_intr (softc_example params_wellspring 0 8)
          usb_state.USB_ST_TRANSFERRED 474 usb_error_t.USB_ERR_NORMAL_COMPLETION).data_reads
      ∧ 477 ∈ (well_trackpad_intr (softc_example params_wellspring 0 8)
          usb_state.USB_ST_TRANSFERRED 474 usb_error_t.USB_ERR_NORMAL_COMPLETION).data_reads
      ∧ ¬ (474 < (softc_example params_wellspring 0 8).sc_params.trackpad_datalen) := by
  rw [intr_full _ _ _ (by decide) (by decide) (by decide), copy_outs_tr_setup,
    tr_setup_data_reads]
  have hsz : WELL_TYPE_2_OFFSET + WELL_FINGER_DATALEN = 478 := by decide
  rw [hsz]
  refine ⟨by decide, rfl, rfl, ?_, ?_, by decide⟩
  · exact List.mem_range.mpr (by decide)
  · exact List.mem_range.mpr (by decide)

/-- C24 fails on the y axis: in every profile of the table the resolutions are the
constants named for their axes and the noise of the pressure, width and x axes are
`NOISE_PRESSURE`, `NOISE_WIDTH` and `NOISE_X`, but the noise of the y axis is
`NOISE_X` = 5 and not `NOISE_Y` = 3. -/
theorem C24_y_noise_is_noise_x :
    well_dev_params.map (fun p =>
        (p.press_calib.res, p.width_calib.res, p.x_calib.res, p.y_calib.res))
        = List.replicate 9 (RES_PRESSURE, RES_WIDTH, RES_X, RES_Y)
      ∧ (RES_PRESSURE = 256 ∧ RES_WIDTH = 16 ∧ RES_X = 1280 ∧ RES_Y = 800)
      ∧ well_dev_params.map (fun p =>
          (p.press_calib.noise, p.width_calib.noise, p.x_calib.noise))
        = List.replicate 9 (NOISE_PRESSURE, NOISE_WIDTH, NOISE_X)
      ∧ (NOISE_PRESSURE = 6 ∧ NOISE_WIDTH = 1 ∧ NOISE_X = 5 ∧ NOISE_Y = 3)
      ∧ well_dev_params.map (fun p => p.y_calib.noise) = List.replicate 9 NOISE_X
      ∧ params_wellspring.y_calib.noise = 5
      ∧ params_wellspring.y_calib.noise ≠ NOISE_Y := by
  decide

/-- The function `well_set_mode` leaves `sc_pollrate` as it is. -/
theorem well_set_mode_pollrate {D : Type} (h : usb_host D) (udev : D) (sc : well_softc)
    (mode : Nat) : (well_set_mode h udev sc mode).2.1.sc_pollrate = sc.sc_pollrate := by
  have hdev : ∀ (d : D) (sc1 : well_softc),
      (well_set_device_mode h d sc1 mode).2.1.sc_pollrate = sc1.sc_pollrate := by
    intro d sc1
    unfold well_set_device_mode
    dsimp only
    split_ifs <;> rfl
  unfold well_set_mode
  dsimp only
  split_ifs
  · rfl
  · exact hdev _ { sc with sc_mode_bytes := _ }
  · exact hdev _ { sc with sc_mode_bytes := _ }

/-- Bounds of the interval `1000 / rate` for a rate between 1 and 1000. -/
theorem tdiv_1000_bounds (r : Int) (h1 : 1 ≤ r) (h2 : r ≤ 1000) :
    1 ≤ Int.tdiv 1000 r ∧ Int.tdiv 1000 r ≤ 1000 := by
  rw [Int.tdiv_eq_ediv (by norm_num) (by omega)]
  constructor
  · exact Int.le_ediv_of_mul_le (by omega) (by omega)
  · exact Int.ediv_le_self _ (by norm_num)

/-- C25: in `well_start_read`, with `rate` the value of `sc_pollrate` read as an
`int` and clamped to at most 1000: if `rate > 0` and the trackpad transfer exists,
the transfer is stopped, its interval is set to `1000 / rate`, which lies in
[1, 1000], and `sc_pollrate` becomes 0; if `rate <= 0` (or the transfer does not
exist) no interval is set and `sc_pollrate` is unchanged.  Every interval that is
set is `1000 / r` for some `r` in [1, 1000], so no division by zero occurs. -/
theorem C25_pollrate_override {D : Type} (h : usb_host D) (udev : D) (sc : well_softc) :
    let rate : Int :=
      if toInt32 sc.sc_pollrate > 1000 then 1000 else toInt32 sc.sc_pollrate
    rate ≤ 1000
      ∧ (0 < rate → sc.sc_xfer = true →
          (well_start_read h udev sc).calls
              = [usb_call.usbd_transfer_stop,
                 usb_call.usbd_xfer_set_interval (Int.tdiv 1000 rate),
                 usb_call.usbd_transfer_start]
            ∧ rate ≠ 0
            ∧ 1 ≤ Int.tdiv 1000 rate ∧ Int.tdiv 1000 rate ≤ 1000
            ∧ (well_start_read h udev sc).sc.sc_pollrate = 0)
      ∧ (rate ≤ 0 →
          (well_start_read h udev sc).calls = [usb_call.usbd_transfer_start]
            ∧ (well_start_read h udev sc).sc.sc_pollrate = sc.sc_pollrate)
      ∧ (sc.sc_xfer = false →
          (well_start_read h udev sc).calls = [usb_call.usbd_transfer_start]
            ∧ (well_start_read h udev sc).sc.sc_pollrate = sc.sc_pollrate)
      ∧ (∀ i : Int, usb_call.usbd_xfer_set_interval i ∈ (well_start_read h udev sc).calls →
          ∃ r : Int, 1 ≤ r ∧ r ≤ 1000 ∧ i = Int.tdiv 1000 r ∧ 1 ≤ i ∧ i ≤ 1000) := by
  intro rate
  have hle : rate ≤ 1000 := by
    simp only [rate]
    split_ifs <;> omega
  have hs : well_start_read h udev sc =
        (if rate > 0 ∧ sc.sc_xfer = true then
          { sc := (well_set_mode h udev { sc with sc_pollrate := 0 } RAW_SENSOR_MODE).2.1,
            udev := (well_set_mode h udev { sc with sc_pollrate := 0 } RAW_SENSOR_MODE).2.2,
            calls := [usb_call.usbd_transfer_stop,
                      usb_call.usbd_xfer_set_interval (Int.tdiv 1000 rate),
                      usb_call.usbd_transfer_start] }
        else
          { sc := (well_set_mode h udev sc RAW_SENSOR_MODE).2.1,
            udev := (well_set_mode h udev sc RAW_SENSOR_MODE).2.2,
            calls := [usb_call.usbd_transfer_start] }) := by
    simp only [well_start_read, rate]
    split_ifs <;> rfl
  refine ⟨hle, ?_, ?_, ?_, ?_⟩
  · intro hpos hx
    have hb := tdiv_1000_bounds rate (by omega) hle
    rw [hs, if_pos ⟨hpos, hx⟩]
    exact ⟨rfl, by omega, hb.1, hb.2, well_set_mode_pollrate h udev _ RAW_SENSOR_MODE⟩
  · intro hneg
    have hc : ¬ (rate > 0 ∧ sc.sc_xfer = true) := fun hc => by omega
    rw [hs, if_neg hc]
    exact ⟨rfl, well_set_mode_pollrate h udev sc RAW_SENSOR_MODE⟩
  · intro hx
    have hc : ¬ (rate > 0 ∧ sc.sc_xfer = true) := fun hc => by simp [hx] at hc
    rw [hs, if_neg hc]
    exact ⟨rfl, well_set_mode_pollrate h udev sc RAW_SENSOR_MODE⟩
  · intro i hi
    rw [hs] at hi
    by_cases hc : rate > 0 ∧ sc.sc_xfer = true
    · rw [if_pos hc] at hi
      simp at hi
      have hb := tdiv_1000_bounds rate (by omega) hle
      exact ⟨rate, by omega, hle, hi, by rw [hi]; exact hb.1, by rw [hi]; exact hb.2⟩
    · rw [if_neg hc] at hi
      simp at hi

/-- Witness for C25: a poll rate of 250 sets an interval of 4 and is consumed. -/
theorem C25_pollrate_override_witness :
    (0 : Int) < (if toInt32 ({ softc_example params_wellspring 0 8 with
          sc_pollrate := 250 } : well_softc).sc_pollrate > 1000 then 1000
        else toInt32 ({ softc_example params_wellspring 0 8 with
          sc_pollrate := 250 } : well_softc).sc_pollrate)
      ∧ ({ softc_example params_wellspring 0 8 with sc_pollrate := 250 } : well_softc).sc_xfer
          = true
      ∧ (well_start_read host_ok ()
          { softc_example params_wellspring 0 8 with sc_pollrate := 250 }).calls
        = [usb_call.usbd_transfer_stop, usb_call.usbd_xfer_set_interval 4,
           usb_call.usbd_transfer_start] :=
  ⟨by decide, rfl,
    ((C25_pollrate_override host_ok ()
      { softc_example params_wellspring 0 8 with sc_pollrate := 250 }).2.1
      (by decide) rfl).1⟩

/-- With `err` holding 0 at entry, `well_attach` is determined by the outcomes of
`usbd_transfer_setup` and `usb_fifo_attach`: 0 with the profile bound and state and
counter cleared when both succeed, `ENOMEM` after `well_detach` otherwise. -/
theorem well_attach_of_zero_err (sc : well_softc) (driver_info : Nat)
    (setup_err : usb_error_t) (fifo_err : Int) (p : struct_well_dev_params)
    (hp : well_dev_params[driver_info]? = some p) :
    (setup_err = usb_error_t.USB_ERR_NORMAL_COMPLETION → fifo_err = 0 →
        well_attach sc driver_info 0 setup_err fifo_err
          = some { ret := 0,
                   sc := { sc with sc_xfer := true, sc_params := p, sc_state := 0,
                                   sc_errs := 0 },
                   calls := [attach_call.mtx_init, attach_call.usbd_transfer_setup,
                             attach_call.usb_fifo_attach,
                             attach_call.device_set_usb_desc] })
      ∧ (setup_err ≠ usb_error_t.USB_ERR_NORMAL_COMPLETION →
          well_attach sc driver_info 0 setup_err fifo_err
            = some { ret := ENOMEM, sc := (well_detach sc).sc,
                     calls := [attach_call.mtx_init, attach_call.usbd_transfer_setup]
                       ++ (well_detach sc).calls })
      ∧ (setup_err = usb_error_t.USB_ERR_NORMAL_COMPLETION → fifo_err ≠ 0 →
          well_attach sc driver_info 0 setup_err fifo_err
            = some { ret := ENOMEM, sc := (well_detach { sc with sc_xfer := true }).sc,
                     calls := [attach_call.mtx_init, attach_call.usbd_transfer_setup,
                               attach_call.usb_fifo_attach]
                       ++ (well_detach { sc with sc_xfer := true }).calls })
      ∧ (∀ sc1 : well_softc, [attach_call.usb_fifo_detach, attach_call.usbd_transfer_unsetup,
          attach_call.mtx_destroy] <:+ (well_detach sc1).calls) := by
  refine ⟨?_, ?_, ?_, ?_⟩
  · intro h1 h2
    subst h1 h2
    simp [well_attach, hp]
  · intro h1
    simp [well_attach, h1]
  · intro h1 h2
    subst h1
    simp [well_attach, h2]
  · intro sc1
    simp only [well_detach]
    exact List.suffix_append _ _

/-- C26 fails: `well_attach` tests the local `err` before anything is assigned to
it.  For one and the same device (`DEV_WELLSPRING`) and both host calls
succeeding, a run in which `err` happens to hold 7 returns 7 right after `mtx_init`
(no transfer set up, profile not bound, no detach), and a run in which it holds 0
returns 0 with the profile bound: the results differ. -/
theorem C26_attach_reads_unassigned_err :
    well_attach (softc_example params_wellspring3 2 8) DEV_WELLSPRING 7
        usb_error_t.USB_ERR_NORMAL_COMPLETION 0
        = some { ret := 7, sc := softc_example params_wellspring3 2 8,
                 calls := [attach_call.mtx_init] }
      ∧ well_attach (softc_example params_wellspring3 2 8) DEV_WELLSPRING 0
          usb_error_t.USB_ERR_NORMAL_COMPLETION 0
        = some { ret := 0, sc := softc_example params_wellspring 0 8,
                 calls := [attach_call.mtx_init, attach_call.usbd_transfer_setup,
                           attach_call.usb_fifo_attach, attach_call.device_set_usb_desc] }
      ∧ (well_attach (softc_example params_wellspring3 2 8) DEV_WELLSPRING 7
            usb_error_t.USB_ERR_NORMAL_COMPLETION 0).map (fun r => r.ret)
          ≠ (well_attach (softc_example params_wellspring3 2 8) DEV_WELLSPRING 0
            usb_error_t.USB_ERR_NORMAL_COMPLETION 0).map (fun r => r.ret) := by
  decide

/-- C27: for every `int` level, `SET_SYSTEM_LOG_LVL` stores a value in
[`LOG_LVL_MIN`, `LOG_LVL_MAX`] = [0, 5]: the level itself when it is in that range,
`LOG_LVL_MAX` when it is above, `LOG_LVL_MIN` when it is below; setting the stored
value again changes nothing; and `DEFINE_LOG_SYSTEM(well, LVL_DEBUG)` gives
`well_log_lvl` the value 5. -/
theorem C27_log_level_clamp (lvl : Int) :
    (LOG_LVL_MIN ≤ (SET_SYSTEM_LOG_LVL lvl : Int) ∧ (SET_SYSTEM_LOG_LVL lvl : Int) ≤ LOG_LVL_MAX)
      ∧ (LOG_LVL_MIN = 0 ∧ LOG_LVL_MAX = 5)
      ∧ (LOG_LVL_MIN ≤ lvl → lvl ≤ LOG_LVL_MAX → (SET_SYSTEM_LOG_LVL lvl : Int) = lvl)
      ∧ (LOG_LVL_MAX < lvl → (SET_SYSTEM_LOG_LVL lvl : Int) = LOG_LVL_MAX)
      ∧ (lvl < LOG_LVL_MIN → (SET_SYSTEM_LOG_LVL lvl : Int) = LOG_LVL_MIN)
      ∧ SET_SYSTEM_LOG_LVL (SET_SYSTEM_LOG_LVL lvl : Int) = SET_SYSTEM_LOG_LVL lvl
      ∧ well_log_lvl = 5 := by
  have hcl : ∀ x : Int, (SET_SYSTEM_LOG_LVL x : Int)
      = (if x > 5 then 5 else if x < 0 then 0 else x) := by
    intro x
    unfold SET_SYSTEM_LOG_LVL u32 LOG_LVL_MAX LOG_LVL_MIN
    split_ifs <;> omega
  have hidem : SET_SYSTEM_LOG_LVL (SET_SYSTEM_LOG_LVL lvl : Int) = SET_SYSTEM_LOG_LVL lvl := by
    have h1 := hcl lvl
    have h2 := hcl (SET_SYSTEM_LOG_LVL lvl : Int)
    split_ifs at h1 h2 <;> omega
  have h1 := hcl lvl
  refine ⟨?_, ⟨rfl, rfl⟩, ?_, ?_, ?_, hidem, by decide⟩
  · unfold LOG_LVL_MAX LOG_LVL_MIN
    split_ifs at h1 <;> omega
  · unfold LOG_LVL_MAX LOG_LVL_MIN
    intro ha hb
    split_ifs at h1 <;> omega
  · unfold LOG_LVL_MAX
    intro ha
    split_ifs at h1 <;> omega
  · unfold LOG_LVL_MIN
    intro ha
    split_ifs at h1 <;> omega

/-- Witness for C27: level 9 is stored as 5, level -3 as 0. -/
theorem C27_log_level_clamp_witness :
    LOG_LVL_MAX < (9 : Int) ∧ (-3 : Int) < LOG_LVL_MIN
      ∧ (SET_SYSTEM_LOG_LVL 9 : Int) = LOG_LVL_MAX
      ∧ (SET_SYSTEM_LOG_LVL (-3) : Int) = LOG_LVL_MIN :=
  ⟨by decide, by decide,
    (C27_log_level_clamp 9).2.2.2.1 (by decide),
    (C27_log_level_clamp (-3)).2.2.2.2.1 (by decide)⟩

end Well
